import Mathlib

/-!
Verification of the energy-dispatch optimization core of the
Weather-Based-Energy-Prediction-System repository.

The two model builders (`src/optimization/model.py` and
`src/optimization/microgrid_model.py`) construct a pulp linear program:
a list of linear equality/inequality constraints over per-hour decision
variables, per-variable bounds, and a linear objective.  We embed the
built program shallowly: a `Var` inductive for the pulp variables, an
association-list `LinExpr` for pulp affine expressions, and `LPModel`
for the built problem.  Python floats are modelled as rationals; the one
float operation with no exact rational counterpart, `eta_rt ** 0.5`
(model.py line 41), is modelled by an abstract function argument
`fsqrt`.  Python runtime failures (IndexError on a too-short series,
ZeroDivisionError on division by a zero efficiency) are modelled by the
builders returning `Except PyError`.
-/

/-- The pulp decision variables created by the two builders, indexed by hour. -/
inductive Var where
  | charge (h : ℕ)
  | discharge (h : ℕ)
  | grid_import (h : ℕ)
  | grid_export (h : ℕ)
  | soc (h : ℕ)
  | unmet (h : ℕ)
  | curtail (h : ℕ)
  | hospital_served (h : ℕ)
  | school_served (h : ℕ)
  | homes_served (h : ℕ)
  | hospital_unmet (h : ℕ)
  | school_unmet (h : ℕ)
  | homes_unmet (h : ℕ)
deriving DecidableEq

/-- A pulp affine expression: a list of (coefficient, variable) terms plus a constant. -/
structure LinExpr where
  terms : List (ℚ × Var)
  const : ℚ
deriving DecidableEq

/-- Value of an affine expression under an assignment of the variables. -/
def LinExpr.eval (e : LinExpr) (a : Var → ℚ) : ℚ :=
  (e.terms.map (fun t => t.1 * a t.2)).sum + e.const

/-- A single pulp variable as an expression. -/
def LinExpr.ofVar (v : Var) : LinExpr := ⟨[(1, v)], 0⟩

/-- A constant as an expression. -/
def LinExpr.ofConst (q : ℚ) : LinExpr := ⟨[], q⟩

/-- Sum of two affine expressions. -/
def LinExpr.add (e f : LinExpr) : LinExpr := ⟨e.terms ++ f.terms, e.const + f.const⟩

/-- Scalar multiple of an affine expression (pulp float * expression). -/
def LinExpr.scale (q : ℚ) (e : LinExpr) : LinExpr :=
  ⟨e.terms.map (fun t => (q * t.1, t.2)), q * e.const⟩

instance : Add LinExpr := ⟨LinExpr.add⟩

/-- Difference of two affine expressions. -/
def LinExpr.sub (e f : LinExpr) : LinExpr := e + LinExpr.scale (-1) f

instance : Sub LinExpr := ⟨LinExpr.sub⟩

@[simp] theorem LinExpr.eval_ofVar (v : Var) (a : Var → ℚ) :
    (LinExpr.ofVar v).eval a = a v := by
  simp [LinExpr.eval, LinExpr.ofVar]

@[simp] theorem LinExpr.eval_ofConst (q : ℚ) (a : Var → ℚ) :
    (LinExpr.ofConst q).eval a = q := by
  simp [LinExpr.eval, LinExpr.ofConst]

@[simp] theorem LinExpr.eval_add (e f : LinExpr) (a : Var → ℚ) :
    (e + f).eval a = e.eval a + f.eval a := by
  show (LinExpr.add e f).eval a = _
  simp [LinExpr.eval, LinExpr.add]
  ring

@[simp] theorem LinExpr.eval_scale (q : ℚ) (e : LinExpr) (a : Var → ℚ) :
    (LinExpr.scale q e).eval a = q * e.eval a := by
  rcases e with ⟨ts, c⟩
  simp only [LinExpr.eval, LinExpr.scale]
  rw [mul_add]
  congr 1
  induction ts with
  | nil => simp
  | cons t ts ih =>
    simp only [List.map_cons, List.sum_cons, ih]
    ring

@[simp] theorem LinExpr.eval_sub (e f : LinExpr) (a : Var → ℚ) :
    (e - f).eval a = e.eval a - f.eval a := by
  show (LinExpr.sub e f).eval a = _
  simp [LinExpr.sub]
  ring

/-- Kind of a pulp constraint: `<=` or `==`. -/
inductive LinRel where
  | le
  | eq
deriving DecidableEq

/-- A pulp constraint `lhs rel rhs`. -/
structure Constraint where
  rel : LinRel
  lhs : LinExpr
  rhs : LinExpr
deriving DecidableEq

/-- Satisfaction of a constraint by an assignment. -/
def Constraint.sat (c : Constraint) (a : Var → ℚ) : Prop :=
  match c.rel with
  | .le => c.lhs.eval a ≤ c.rhs.eval a
  | .eq => c.lhs.eval a = c.rhs.eval a

instance (c : Constraint) (a : Var → ℚ) : Decidable (c.sat a) :=
  match c with
  | ⟨.le, l, r⟩ => inferInstanceAs (Decidable (l.eval a ≤ r.eval a))
  | ⟨.eq, l, r⟩ => inferInstanceAs (Decidable (l.eval a = r.eval a))

/-- A pulp variable bound: `lowBound` and optional `upBound`. -/
structure VarBound where
  v : Var
  lo : ℚ
  hi : Option ℚ
deriving DecidableEq

/-- Satisfaction of a variable bound by an assignment.  A `none` upper bound
imposes nothing, mirrored by comparing the value with itself. -/
def VarBound.sat (b : VarBound) (a : Var → ℚ) : Prop :=
  b.lo ≤ a b.v ∧ a b.v ≤ b.hi.getD (a b.v)

instance (b : VarBound) (a : Var → ℚ) : Decidable (b.sat a) :=
  inferInstanceAs (Decidable (_ ∧ _))

/-- The built linear program: constraint list, variable bounds, objective. -/
structure LPModel where
  constraints : List Constraint
  bounds : List VarBound
  objective : LinExpr
deriving DecidableEq

/-- An assignment accepted by the program: satisfies every constraint and bound. -/
def LPModel.Feasible (m : LPModel) (a : Var → ℚ) : Prop :=
  (∀ c ∈ m.constraints, c.sat a) ∧ (∀ b ∈ m.bounds, b.sat a)

instance (m : LPModel) (a : Var → ℚ) : Decidable (m.Feasible a) :=
  inferInstanceAs (Decidable (_ ∧ _))

/-- An optimal assignment: feasible and of minimal objective value. -/
def LPModel.Optimal (m : LPModel) (a : Var → ℚ) : Prop :=
  m.Feasible a ∧ ∀ b, m.Feasible b → m.objective.eval a ≤ m.objective.eval b

/-- Python runtime failures that the builders and decoders can raise. -/
inductive PyError where
  | indexError
  | zeroDivisionError
  | runtimeError
  | typeError
deriving DecidableEq

/-- The `battery` dict consumed by both builders; a `none` field is an absent key. -/
structure BatteryDict where
  capacity_kWh : Option ℚ := none
  soc0_kWh : Option ℚ := none
  max_charge_rate_kW : Option ℚ := none
  max_discharge_rate_kW : Option ℚ := none
  round_trip_efficiency : Option ℚ := none
deriving DecidableEq

/-- The `grid` dict consumed by the cost-mode builder. -/
structure GridDict where
  price_buy_per_kWh : Option ℚ := none
  price_sell_per_kWh : Option ℚ := none
  export_limit_kW : Option ℚ := none
  import_limit_kW : Option ℚ := none
deriving DecidableEq

/-- The `params` dict: keys read by the cost-mode builder and by the
microgrid builder; a `none` field is an absent key. -/
structure ParamsDict where
  eta_charge : Option ℚ := none
  eta_discharge : Option ℚ := none
  lambda_unmet : Option ℚ := none
  mu_curtail : Option ℚ := none
  cycle_penalty : Option ℚ := none
  P_hospital_unmet : Option ℚ := none
  P_school_unmet : Option ℚ := none
  P_homes_unmet : Option ℚ := none
  P_curtail : Option ℚ := none
  P_cycle : Option ℚ := none
deriving DecidableEq

/-- The `loads` dict consumed by the microgrid builder. -/
structure LoadsDict where
  hospital_kWh : Option (List ℚ) := none
  school_kWh : Option (List ℚ) := none
  homes_kWh : Option (List ℚ) := none
deriving DecidableEq

/-- Parameters of the cost-mode builder after dict lookups with defaults
(model.py lines 36-51). -/
structure DayCfg where
  capacity : ℚ
  soc0 : ℚ
  max_c : ℚ
  max_d : ℚ
  eta_c : ℚ
  eta_d : ℚ
  price_buy : ℚ
  price_sell : ℚ
  export_limit : ℚ
  import_limit : ℚ
  lambda_unmet : ℚ
  mu_curtail : ℚ
  cycle_penalty : ℚ
deriving DecidableEq

/-- Dict lookups with defaults of model.py lines 36-51.  `fsqrt` models the
Python float computation `eta_rt ** 0.5` for nonnegative `eta_rt`, the only
case in which its result is a real number.  For negative `eta_rt`, Python
produces a complex number and `float` of it raises TypeError when the eta
default is demanded; that error path is modelled by `dayEtaTypeError` and
`build_milp_model_full` below, which guard every use of this resolution. -/
def resolveDay (fsqrt : ℚ → ℚ) (battery : BatteryDict) (grid : GridDict)
    (params : ParamsDict) : DayCfg :=
  let eta_rt := battery.round_trip_efficiency.getD (95/100)
  { capacity := battery.capacity_kWh.getD 20
    soc0 := battery.soc0_kWh.getD 10
    max_c := battery.max_charge_rate_kW.getD 5
    max_d := battery.max_discharge_rate_kW.getD 5
    eta_c := params.eta_charge.getD (fsqrt eta_rt)
    eta_d := params.eta_discharge.getD (fsqrt eta_rt)
    price_buy := grid.price_buy_per_kWh.getD 6
    price_sell := grid.price_sell_per_kWh.getD 3
    export_limit := grid.export_limit_kW.getD 5
    import_limit := grid.import_limit_kW.getD 10
    lambda_unmet := params.lambda_unmet.getD 100
    mu_curtail := params.mu_curtail.getD 2
    cycle_penalty := params.cycle_penalty.getD (1/100) }

/-- Initial-SOC equality of model.py line 64: the raw `soc0` is clamped into
`[0, capacity]`. -/
def dayInitCon (cfg : DayCfg) : Constraint :=
  ⟨.eq, LinExpr.ofVar (.soc 0), LinExpr.ofConst (max 0 (min cfg.capacity cfg.soc0))⟩

/-- Constraints emitted for hour `h` by model.py lines 66-81: energy balance,
rate and grid limits, and (for `h < H-1`) the SOC recurrence whose denominator
is `max(eta_d, 1e-6)`. -/
def dayHourCons (gen demand : List ℚ) (cfg : DayCfg) (H h : ℕ) : List Constraint :=
  let balance : Constraint :=
    ⟨.eq,
      LinExpr.ofConst (gen.getD h 0) + LinExpr.ofVar (.grid_import h) +
        LinExpr.ofVar (.discharge h),
      LinExpr.ofConst (demand.getD h 0) + LinExpr.ofVar (.charge h) +
        LinExpr.ofVar (.grid_export h) + LinExpr.ofVar (.curtail h) -
        LinExpr.ofVar (.unmet h)⟩
  let rates : List Constraint :=
    [⟨.le, LinExpr.ofVar (.charge h), LinExpr.ofConst cfg.max_c⟩,
     ⟨.le, LinExpr.ofVar (.discharge h), LinExpr.ofConst cfg.max_d⟩,
     ⟨.le, LinExpr.ofVar (.grid_export h), LinExpr.ofConst cfg.export_limit⟩,
     ⟨.le, LinExpr.ofVar (.grid_import h), LinExpr.ofConst cfg.import_limit⟩]
  let socDyn : List Constraint :=
    if h < H - 1 then
      [⟨.eq, LinExpr.ofVar (.soc (h + 1)),
        LinExpr.ofVar (.soc h) + LinExpr.scale cfg.eta_c (LinExpr.ofVar (.charge h)) -
          LinExpr.scale (max cfg.eta_d (1/1000000))⁻¹ (LinExpr.ofVar (.discharge h))⟩]
    else []
  balance :: (rates ++ socDyn)

/-- Hour step of the cost-mode builder: `demand_kwh[h]` raises IndexError when
the demand series is shorter than the generation series. -/
def dayHourStep (gen demand : List ℚ) (cfg : DayCfg) (H h : ℕ) :
    Except PyError (List Constraint) :=
  if demand.length ≤ h then .error .indexError
  else .ok (dayHourCons gen demand cfg H h)

/-- Variable bounds created by model.py lines 55-61. -/
def dayBounds (H : ℕ) (capacity : ℚ) : List VarBound :=
  (List.range H).flatMap (fun h =>
    [⟨.charge h, 0, none⟩, ⟨.discharge h, 0, none⟩, ⟨.grid_import h, 0, none⟩,
     ⟨.grid_export h, 0, none⟩, ⟨.soc h, 0, some capacity⟩, ⟨.unmet h, 0, none⟩,
     ⟨.curtail h, 0, none⟩])

/-- Objective of model.py lines 84-92. -/
def dayObjective (H : ℕ) (cfg : DayCfg) : LinExpr :=
  ((List.range H).flatMap (fun h =>
    [LinExpr.scale cfg.price_buy (LinExpr.ofVar (.grid_import h)),
     LinExpr.scale (-cfg.price_sell) (LinExpr.ofVar (.grid_export h)),
     LinExpr.scale cfg.lambda_unmet (LinExpr.ofVar (.unmet h)),
     LinExpr.scale cfg.mu_curtail (LinExpr.ofVar (.curtail h)),
     LinExpr.scale cfg.cycle_penalty
       (LinExpr.ofVar (.charge h) + LinExpr.ofVar (.discharge h))])).foldl
    (· + ·) (LinExpr.ofConst 0)

/-- The `for h in range(H)` loop shared by the two builders: accumulate each
hour's constraints, aborting at the first raised error. -/
def hoursLoop (step : ℕ → Except PyError (List Constraint)) :
    List ℕ → List Constraint → Except PyError (List Constraint)
  | [], acc => .ok acc
  | h :: rest, acc =>
    match step h with
    | .error e => .error e
    | .ok hc => hoursLoop step rest (acc ++ hc)

/-- The cost-mode builder `build_milp_model` (model.py lines 10-104) on the
inputs where the efficiency resolution of lines 40-42 does not raise (see
`build_milp_model_full` for the TypeError path).  An empty generation series
makes `soc[0]` raise IndexError. -/
def build_milp_model (fsqrt : ℚ → ℚ) (gen_kwh demand_kwh : List ℚ)
    (battery : BatteryDict) (grid : GridDict) (params : ParamsDict) :
    Except PyError LPModel :=
  let H := gen_kwh.length
  let cfg := resolveDay fsqrt battery grid params
  if H = 0 then .error .indexError
  else
    match hoursLoop (dayHourStep gen_kwh demand_kwh cfg H) (List.range H)
        [dayInitCon cfg] with
    | .error e => .error e
    | .ok conList =>
      .ok { constraints := conList, bounds := dayBounds H cfg.capacity,
            objective := dayObjective H cfg }

/-- The efficiency resolution of model.py lines 40-42 raises TypeError: with
`round_trip_efficiency` negative, the eagerly computed default
`eta_rt ** 0.5` is a Python complex number, and `float` of it raises as soon
as one of the `eta_charge`/`eta_discharge` keys is absent and the complex
default is the value returned by `.get`. -/
def dayEtaTypeError (battery : BatteryDict) (params : ParamsDict) : Prop :=
  battery.round_trip_efficiency.getD (95/100) < 0 ∧
    (params.eta_charge = none ∨ params.eta_discharge = none)

instance (battery : BatteryDict) (params : ParamsDict) :
    Decidable (dayEtaTypeError battery params) :=
  inferInstanceAs (Decidable (_ ∧ _))

/-- The cost-mode builder with the full float semantics of model.py lines
40-42: the efficiency resolution runs before `soc[0]` is touched, so its
TypeError (negative `eta_rt` with an absent eta key) precedes every other
failure; on all remaining inputs `eta_rt ** 0.5` is real, the `fsqrt`
abstraction is sound, and the build proceeds as `build_milp_model`. -/
def build_milp_model_full (fsqrt : ℚ → ℚ) (gen_kwh demand_kwh : List ℚ)
    (battery : BatteryDict) (grid : GridDict) (params : ParamsDict) :
    Except PyError LPModel :=
  if dayEtaTypeError battery params then .error .typeError
  else build_milp_model fsqrt gen_kwh demand_kwh battery grid params

/-- Parameters of the microgrid builder after dict lookups with defaults
(microgrid_model.py lines 37-54). -/
structure MicroCfg where
  capacity : ℚ
  soc0 : ℚ
  max_c : ℚ
  max_d : ℚ
  eta_c : ℚ
  eta_d : ℚ
  p_hospital : ℚ
  p_school : ℚ
  p_homes : ℚ
  p_curtail : ℚ
  p_cycle : ℚ
deriving DecidableEq

/-- Dict lookups with defaults of microgrid_model.py lines 37-54. -/
def resolveMicro (battery : BatteryDict) (params : ParamsDict) : MicroCfg :=
  { capacity := battery.capacity_kWh.getD 20
    soc0 := battery.soc0_kWh.getD 10
    max_c := battery.max_charge_rate_kW.getD 5
    max_d := battery.max_discharge_rate_kW.getD 5
    eta_c := params.eta_charge.getD (95/100)
    eta_d := params.eta_discharge.getD (95/100)
    p_hospital := params.P_hospital_unmet.getD 1000
    p_school := params.P_school_unmet.getD 100
    p_homes := params.P_homes_unmet.getD 10
    p_curtail := params.P_curtail.getD 1
    p_cycle := params.P_cycle.getD (1/10) }

/-- Hospital load lookup of microgrid_model.py line 45: default 2.0 kWh/hour. -/
def microHosp (H : ℕ) (loads : LoadsDict) : List ℚ :=
  loads.hospital_kWh.getD (List.replicate H 2)

/-- School load lookup of microgrid_model.py line 46: default 1.0 kWh/hour. -/
def microSchool (H : ℕ) (loads : LoadsDict) : List ℚ :=
  loads.school_kWh.getD (List.replicate H 1)

/-- Homes load lookup of microgrid_model.py line 47: default 0.8 kWh/hour. -/
def microHomes (H : ℕ) (loads : LoadsDict) : List ℚ :=
  loads.homes_kWh.getD (List.replicate H (4/5))

/-- Initial-SOC equality of microgrid_model.py line 74: the raw `soc0`,
with no clamping. -/
def microInitCon (cfg : MicroCfg) : Constraint :=
  ⟨.eq, LinExpr.ofVar (.soc 0), LinExpr.ofConst cfg.soc0⟩

/-- Constraints emitted for hour `h` by microgrid_model.py lines 76-92:
energy balance, the three served+unmet=demand splits, rate limits, and
(for `h < H-1`) the SOC recurrence with raw `eta_d` denominator. -/
def microHourCons (gen hosp school homes : List ℚ) (cfg : MicroCfg) (H h : ℕ) :
    List Constraint :=
  let balance : Constraint :=
    ⟨.eq, LinExpr.ofConst (gen.getD h 0) + LinExpr.ofVar (.discharge h),
      LinExpr.ofVar (.charge h) +
        (LinExpr.ofVar (.hospital_served h) + LinExpr.ofVar (.school_served h) +
          LinExpr.ofVar (.homes_served h)) + LinExpr.ofVar (.curtail h)⟩
  let loadCons : List Constraint :=
    [⟨.eq, LinExpr.ofVar (.hospital_served h) + LinExpr.ofVar (.hospital_unmet h),
       LinExpr.ofConst (hosp.getD h 0)⟩,
     ⟨.eq, LinExpr.ofVar (.school_served h) + LinExpr.ofVar (.school_unmet h),
       LinExpr.ofConst (school.getD h 0)⟩,
     ⟨.eq, LinExpr.ofVar (.homes_served h) + LinExpr.ofVar (.homes_unmet h),
       LinExpr.ofConst (homes.getD h 0)⟩]
  let rates : List Constraint :=
    [⟨.le, LinExpr.ofVar (.charge h), LinExpr.ofConst cfg.max_c⟩,
     ⟨.le, LinExpr.ofVar (.discharge h), LinExpr.ofConst cfg.max_d⟩]
  let socDyn : List Constraint :=
    if h < H - 1 then
      [⟨.eq, LinExpr.ofVar (.soc (h + 1)),
        LinExpr.ofVar (.soc h) + LinExpr.scale cfg.eta_c (LinExpr.ofVar (.charge h)) -
          LinExpr.scale cfg.eta_d⁻¹ (LinExpr.ofVar (.discharge h))⟩]
    else []
  balance :: (loadCons ++ rates ++ socDyn)

/-- Hour step of the microgrid builder: indexing a provided load series that is
shorter than the generation series raises IndexError, and the unguarded
`discharge[h] / eta_d` of line 92 raises ZeroDivisionError when `eta_d` is 0. -/
def microHourStep (gen hosp school homes : List ℚ) (cfg : MicroCfg) (H h : ℕ) :
    Except PyError (List Constraint) :=
  if hosp.length ≤ h then .error .indexError
  else if school.length ≤ h then .error .indexError
  else if homes.length ≤ h then .error .indexError
  else if h < H - 1 ∧ cfg.eta_d = 0 then .error .zeroDivisionError
  else .ok (microHourCons gen hosp school homes cfg H h)

/-- Variable bounds created by microgrid_model.py lines 59-71. -/
def microBounds (H : ℕ) (capacity : ℚ) : List VarBound :=
  (List.range H).flatMap (fun h =>
    [⟨.charge h, 0, none⟩, ⟨.discharge h, 0, none⟩, ⟨.soc h, 0, some capacity⟩,
     ⟨.hospital_served h, 0, none⟩, ⟨.school_served h, 0, none⟩,
     ⟨.homes_served h, 0, none⟩, ⟨.hospital_unmet h, 0, none⟩,
     ⟨.school_unmet h, 0, none⟩, ⟨.homes_unmet h, 0, none⟩,
     ⟨.curtail h, 0, none⟩])

/-- The five objective terms appended for hour `h` by microgrid_model.py
lines 96-101. -/
def microObjTerms (cfg : MicroCfg) (h : ℕ) : List LinExpr :=
  [LinExpr.scale cfg.p_hospital (LinExpr.ofVar (.hospital_unmet h)),
   LinExpr.scale cfg.p_school (LinExpr.ofVar (.school_unmet h)),
   LinExpr.scale cfg.p_homes (LinExpr.ofVar (.homes_unmet h)),
   LinExpr.scale cfg.p_curtail (LinExpr.ofVar (.curtail h)),
   LinExpr.scale cfg.p_cycle
     (LinExpr.ofVar (.charge h) + LinExpr.ofVar (.discharge h))]

/-- Objective of microgrid_model.py lines 95-103. -/
def microObjective (H : ℕ) (cfg : MicroCfg) : LinExpr :=
  ((List.range H).flatMap (microObjTerms cfg)).foldl (· + ·) (LinExpr.ofConst 0)

/-- The islanded-mode builder `build_microgrid_model` (microgrid_model.py
lines 10-118).  An empty generation series makes `soc[0]` raise IndexError. -/
def build_microgrid_model (gen_kwh : List ℚ) (loads : LoadsDict)
    (battery : BatteryDict) (params : ParamsDict) : Except PyError LPModel :=
  let H := gen_kwh.length
  let cfg := resolveMicro battery params
  if H = 0 then .error .indexError
  else
    match hoursLoop
        (microHourStep gen_kwh (microHosp H loads) (microSchool H loads)
          (microHomes H loads) cfg H)
        (List.range H) [microInitCon cfg] with
    | .error e => .error e
    | .ok conList =>
      .ok { constraints := conList, bounds := microBounds H cfg.capacity,
            objective := microObjective H cfg }

/-- Result dict of `solve_day` (solve_milp.py lines 33-43). -/
structure DayResult where
  status : String
  total_cost : ℚ
  charge_kWh : List ℚ
  discharge_kWh : List ℚ
  grid_import_kWh : List ℚ
  grid_export_kWh : List ℚ
  soc_kWh : List ℚ
  unmet_kWh : List ℚ
  curtail_kWh : List ℚ
deriving DecidableEq

/-- `float(v.value())` (solve_milp.py line 21): a variable the solver left
without a value is Python `None`, and `float(None)` raises TypeError. -/
def floatOfValue (o : Option ℚ) : Except PyError ℚ :=
  match o with
  | some q => .ok q
  | none => .error .typeError

/-- The per-family extraction `values(name)` of solve_milp.py lines 20-21. -/
def extractSeries (value : Var → Option ℚ) (mk : ℕ → Var) (H : ℕ) :
    Except PyError (List ℚ) :=
  (List.range H).mapM (fun h => floatOfValue (value (mk h)))

/-- Decoding part of `solve_day` (solve_milp.py lines 17-43).  The external CBC
solve is abstracted as its outcome: a reported status string, a per-variable
value map, and the objective value.  The extraction is unconditional: it never
branches on the reported status. -/
def solve_day_decode (H : ℕ) (status : String) (value : Var → Option ℚ)
    (objValue : Option ℚ) : Except PyError DayResult := do
  let charge ← extractSeries value Var.charge H
  let discharge ← extractSeries value Var.discharge H
  let g_import ← extractSeries value Var.grid_import H
  let g_export ← extractSeries value Var.grid_export H
  let soc ← extractSeries value Var.soc H
  let unmet ← extractSeries value Var.unmet H
  let curtail ← extractSeries value Var.curtail H
  let total_cost ← floatOfValue objValue
  pure { status := status, total_cost := total_cost, charge_kWh := charge,
         discharge_kWh := discharge, grid_import_kWh := g_import,
         grid_export_kWh := g_export, soc_kWh := soc, unmet_kWh := unmet,
         curtail_kWh := curtail }

/-- Result dict of `solve_microgrid` (solve_microgrid.py lines 37-50). -/
structure MicroResult where
  status : String
  total_penalty : ℚ
  charge_kWh : List ℚ
  discharge_kWh : List ℚ
  soc_kWh : List ℚ
  hospital_served_kWh : List ℚ
  school_served_kWh : List ℚ
  homes_served_kWh : List ℚ
  hospital_unmet_kWh : List ℚ
  school_unmet_kWh : List ℚ
  homes_unmet_kWh : List ℚ
  curtail_kWh : List ℚ
deriving DecidableEq

/-- Decoding part of `solve_microgrid` (solve_microgrid.py lines 18-50), with
the external CBC solve abstracted as its outcome.  As in `solve_day_decode`,
extraction never branches on the reported status. -/
def solve_microgrid_decode (H : ℕ) (status : String) (value : Var → Option ℚ)
    (objValue : Option ℚ) : Except PyError MicroResult := do
  let charge ← extractSeries value Var.charge H
  let discharge ← extractSeries value Var.discharge H
  let soc ← extractSeries value Var.soc H
  let hospital_served ← extractSeries value Var.hospital_served H
  let school_served ← extractSeries value Var.school_served H
  let homes_served ← extractSeries value Var.homes_served H
  let hospital_unmet ← extractSeries value Var.hospital_unmet H
  let school_unmet ← extractSeries value Var.school_unmet H
  let homes_unmet ← extractSeries value Var.homes_unmet H
  let curtail ← extractSeries value Var.curtail H
  let total_penalty ← floatOfValue objValue
  pure { status := status, total_penalty := total_penalty, charge_kWh := charge,
         discharge_kWh := discharge, soc_kWh := soc,
         hospital_served_kWh := hospital_served,
         school_served_kWh := school_served, homes_served_kWh := homes_served,
         hospital_unmet_kWh := hospital_unmet,
         school_unmet_kWh := school_unmet, homes_unmet_kWh := homes_unmet,
         curtail_kWh := curtail }

/-- Generation-series selection of run_from_forecasts.py lines 24-30: an empty
(falsy) or wrong-length solar or wind series raises RuntimeError, otherwise
the series are summed elementwise. -/
def rffGen (solar wind : List ℚ) : Except PyError (List ℚ) :=
  if solar.isEmpty || wind.isEmpty then .error .runtimeError
  else if solar.length ≠ 24 || wind.length ≠ 24 then .error .runtimeError
  else .ok (List.zipWith (· + ·) solar wind)

/-- Generation-series selection of run_microgrid.py lines 31-38: when either
series is empty or not of length 24, a zero series is silently substituted
(only a warning is printed). -/
def rmgGen (solar wind : List ℚ) : List ℚ :=
  if !solar.isEmpty && !wind.isEmpty && solar.length == 24 && wind.length == 24
  then List.zipWith (· + ·) solar wind
  else List.replicate 24 0

/-- Generation-series selection of run_day.py lines 32-47: when the forecasts
are unusable, the configured default series (`none` when the config has no
series key, falsy values collapsed to `[]`) is used, and only if that too is
missing, empty, or not of length 24 is RuntimeError raised. -/
def rdayGen (solar wind : List ℚ) (cfgSeries : Option (List ℚ)) :
    Except PyError (List ℚ) :=
  if !solar.isEmpty && !wind.isEmpty && solar.length == 24 && wind.length == 24
  then .ok (List.zipWith (· + ·) solar wind)
  else
    match cfgSeries with
    | none => .error .runtimeError
    | some g => if g.isEmpty || g.length ≠ 24 then .error .runtimeError else .ok g

/-- The provided series in an optional loads entry is long enough for the
horizon (vacuous for an absent key, whose default has length `H`). -/
def seriesLenOk (H : ℕ) (o : Option (List ℚ)) : Prop :=
  match o with
  | none => True
  | some l => H ≤ l.length

instance (H : ℕ) (o : Option (List ℚ)) : Decidable (seriesLenOk H o) :=
  match o with
  | none => .isTrue trivial
  | some l => inferInstanceAs (Decidable (H ≤ l.length))

theorem seriesLenOk_getD (H : ℕ) (o : Option (List ℚ)) (d : List ℚ)
    (hd : H ≤ d.length) (ho : seriesLenOk H o) : H ≤ (o.getD d).length := by
  cases o with
  | none => simpa using hd
  | some l => exact ho

theorem hoursLoop_ok (step : ℕ → Except PyError (List Constraint))
    (g : ℕ → List Constraint) (l : List ℕ)
    (hok : ∀ h ∈ l, step h = .ok (g h)) (acc : List Constraint) :
    hoursLoop step l acc = .ok (acc ++ l.flatMap g) := by
  induction l generalizing acc with
  | nil => simp [hoursLoop]
  | cons x xs ih =>
    simp only [hoursLoop, hok x (List.mem_cons_self x xs)]
    rw [ih (fun h hh => hok h (List.mem_cons_of_mem x hh)) (acc ++ g x)]
    simp [List.append_assoc]

theorem hoursLoop_ok_iff (step : ℕ → Except PyError (List Constraint))
    (l : List ℕ) (acc : List Constraint) :
    (∃ r, hoursLoop step l acc = .ok r) ↔ ∀ h ∈ l, ∃ cs, step h = .ok cs := by
  induction l generalizing acc with
  | nil => simp [hoursLoop]
  | cons x xs ih =>
    cases hx : step x with
    | error e => simp [hoursLoop, hx]
    | ok cs => simp [hoursLoop, hx, ih]

theorem dayHourStep_ok_iff (gen demand : List ℚ) (cfg : DayCfg) (H h : ℕ) :
    (∃ cs, dayHourStep gen demand cfg H h = .ok cs) ↔ h < demand.length := by
  unfold dayHourStep
  split_ifs with h1
  · simp
    omega
  · simp
    omega

theorem microHourStep_ok_iff (gen hosp school homes : List ℚ) (cfg : MicroCfg)
    (H h : ℕ) :
    (∃ cs, microHourStep gen hosp school homes cfg H h = .ok cs) ↔
      (h < hosp.length ∧ h < school.length ∧ h < homes.length ∧
        ¬(h < H - 1 ∧ cfg.eta_d = 0)) := by
  unfold microHourStep
  split_ifs with h1 h2 h3 h4
  · exact ⟨fun ⟨_, hcs⟩ => hcs.elim, fun hr => absurd hr.1 (by omega)⟩
  · exact ⟨fun ⟨_, hcs⟩ => hcs.elim, fun hr => absurd hr.2.1 (by omega)⟩
  · exact ⟨fun ⟨_, hcs⟩ => hcs.elim, fun hr => absurd hr.2.2.1 (by omega)⟩
  · exact ⟨fun ⟨_, hcs⟩ => hcs.elim, fun hr => absurd h4 hr.2.2.2⟩
  · exact ⟨fun _ => ⟨by omega, by omega, by omega, h4⟩, fun _ => ⟨_, rfl⟩⟩

/-- The program built by the cost-mode builder on successful runs. -/
def dayModel (fsqrt : ℚ → ℚ) (gen demand : List ℚ) (battery : BatteryDict)
    (grid : GridDict) (params : ParamsDict) : LPModel :=
  { constraints := dayInitCon (resolveDay fsqrt battery grid params) ::
      (List.range gen.length).flatMap
        (dayHourCons gen demand (resolveDay fsqrt battery grid params) gen.length),
    bounds := dayBounds gen.length (resolveDay fsqrt battery grid params).capacity,
    objective := dayObjective gen.length (resolveDay fsqrt battery grid params) }

theorem build_milp_model_ok (fsqrt : ℚ → ℚ) (gen demand : List ℚ)
    (battery : BatteryDict) (grid : GridDict) (params : ParamsDict)
    (hne : gen ≠ []) (hlen : gen.length ≤ demand.length) :
    build_milp_model fsqrt gen demand battery grid params =
      .ok (dayModel fsqrt gen demand battery grid params) := by
  have hH : gen.length ≠ 0 := fun h => hne (List.eq_nil_of_length_eq_zero h)
  unfold build_milp_model dayModel
  rw [if_neg hH]
  rw [hoursLoop_ok _
    (dayHourCons gen demand (resolveDay fsqrt battery grid params) gen.length) _
    (fun h hh => by
      have hlt : h < demand.length :=
        lt_of_lt_of_le (List.mem_range.mp hh) hlen
      unfold dayHourStep
      rw [if_neg (by omega)])]
  simp

/-- The program built by the microgrid builder on successful runs. -/
def microModel (gen : List ℚ) (loads : LoadsDict) (battery : BatteryDict)
    (params : ParamsDict) : LPModel :=
  { constraints := microInitCon (resolveMicro battery params) ::
      (List.range gen.length).flatMap
        (microHourCons gen (microHosp gen.length loads)
          (microSchool gen.length loads) (microHomes gen.length loads)
          (resolveMicro battery params) gen.length),
    bounds := microBounds gen.length (resolveMicro battery params).capacity,
    objective := microObjective gen.length (resolveMicro battery params) }

theorem build_microgrid_model_ok (gen : List ℚ) (loads : LoadsDict)
    (battery : BatteryDict) (params : ParamsDict)
    (hne : gen ≠ [])
    (hhosp : seriesLenOk gen.length loads.hospital_kWh)
    (hschool : seriesLenOk gen.length loads.school_kWh)
    (hhomes : seriesLenOk gen.length loads.homes_kWh)
    (heta : 2 ≤ gen.length → (resolveMicro battery params).eta_d ≠ 0) :
    build_microgrid_model gen loads battery params =
      .ok (microModel gen loads battery params) := by
  have hH : gen.length ≠ 0 := fun h => hne (List.eq_nil_of_length_eq_zero h)
  have lh : gen.length ≤ (microHosp gen.length loads).length :=
    seriesLenOk_getD _ _ _ (by simp) hhosp
  have ls : gen.length ≤ (microSchool gen.length loads).length :=
    seriesLenOk_getD _ _ _ (by simp) hschool
  have lm : gen.length ≤ (microHomes gen.length loads).length :=
    seriesLenOk_getD _ _ _ (by simp) hhomes
  unfold build_microgrid_model microModel
  rw [if_neg hH]
  rw [hoursLoop_ok _
    (microHourCons gen (microHosp gen.length loads) (microSchool gen.length loads)
      (microHomes gen.length loads) (resolveMicro battery params) gen.length) _
    (fun h hh => by
      have hlt : h < gen.length := List.mem_range.mp hh
      unfold microHourStep
      rw [if_neg (by omega), if_neg (by omega), if_neg (by omega),
        if_neg (by
          rintro ⟨hdyn, hzero⟩
          exact heta (by omega) hzero)])]
  simp

theorem build_milp_model_isOk_iff (fsqrt : ℚ → ℚ) (gen demand : List ℚ)
    (battery : BatteryDict) (grid : GridDict) (params : ParamsDict) :
    (∃ m, build_milp_model fsqrt gen demand battery grid params = .ok m) ↔
      (gen ≠ [] ∧ gen.length ≤ demand.length) := by
  constructor
  · rintro ⟨m, hm⟩
    unfold build_milp_model at hm
    by_cases hH : gen.length = 0
    · rw [if_pos hH] at hm
      exact absurd hm (by simp)
    · rw [if_neg hH] at hm
      refine ⟨fun hnil => hH (by simp [hnil]), ?_⟩
      rcases hl : hoursLoop
          (dayHourStep gen demand (resolveDay fsqrt battery grid params)
            gen.length) (List.range gen.length) [dayInitCon
            (resolveDay fsqrt battery grid params)] with e | r
      · rw [hl] at hm
        exact absurd hm (by simp)
      · have hall := (hoursLoop_ok_iff _ _ _).mp ⟨r, hl⟩
        by_contra hlt
        push_neg at hlt
        have := hall demand.length (List.mem_range.mpr hlt)
        rw [dayHourStep_ok_iff] at this
        omega
  · rintro ⟨hne, hlen⟩
    exact ⟨_, build_milp_model_ok fsqrt gen demand battery grid params hne hlen⟩

theorem build_microgrid_model_isOk_iff (gen : List ℚ) (loads : LoadsDict)
    (battery : BatteryDict) (params : ParamsDict) :
    (∃ m, build_microgrid_model gen loads battery params = .ok m) ↔
      (gen ≠ [] ∧ seriesLenOk gen.length loads.hospital_kWh ∧
        seriesLenOk gen.length loads.school_kWh ∧
        seriesLenOk gen.length loads.homes_kWh ∧
        (2 ≤ gen.length → (resolveMicro battery params).eta_d ≠ 0)) := by
  constructor
  · rintro ⟨m, hm⟩
    unfold build_microgrid_model at hm
    by_cases hH : gen.length = 0
    · rw [if_pos hH] at hm
      exact absurd hm (by simp)
    · rw [if_neg hH] at hm
      rcases hl : hoursLoop
          (microHourStep gen (microHosp gen.length loads)
            (microSchool gen.length loads) (microHomes gen.length loads)
            (resolveMicro battery params) gen.length) (List.range gen.length)
          [microInitCon (resolveMicro battery params)] with e | r
      · rw [hl] at hm
        exact absurd hm (by simp)
      · have hall := (hoursLoop_ok_iff _ _ _).mp ⟨r, hl⟩
        refine ⟨fun hnil => hH (by simp [hnil]), ?_, ?_, ?_, ?_⟩
        · cases ho : loads.hospital_kWh with
          | none => trivial
          | some l =>
            show gen.length ≤ l.length
            by_contra hlt
            push_neg at hlt
            have := hall l.length (List.mem_range.mpr hlt)
            rw [microHourStep_ok_iff] at this
            have : l.length < (microHosp gen.length loads).length := this.1
            rw [microHosp, ho] at this
            simp at this
        · cases ho : loads.school_kWh with
          | none => trivial
          | some l =>
            show gen.length ≤ l.length
            by_contra hlt
            push_neg at hlt
            have := hall l.length (List.mem_range.mpr hlt)
            rw [microHourStep_ok_iff] at this
            have : l.length < (microSchool gen.length loads).length := this.2.1
            rw [microSchool, ho] at this
            simp at this
        · cases ho : loads.homes_kWh with
          | none => trivial
          | some l =>
            show gen.length ≤ l.length
            by_contra hlt
            push_neg at hlt
            have := hall l.length (List.mem_range.mpr hlt)
            rw [microHourStep_ok_iff] at this
            have : l.length < (microHomes gen.length loads).length := this.2.2.1
            rw [microHomes, ho] at this
            simp at this
        · intro hH2
          have := hall 0 (List.mem_range.mpr (by omega))
          rw [microHourStep_ok_iff] at this
          have hnd := this.2.2.2
          intro hz
          exact hnd ⟨by omega, hz⟩
  · rintro ⟨hne, hh, hs, hm, heta⟩
    exact ⟨_, build_microgrid_model_ok gen loads battery params hne hh hs hm heta⟩

/-- The program contains a constraint equivalent to the property `P`. -/
def ContainsCon (m : LPModel) (P : (Var → ℚ) → Prop) : Prop :=
  ∃ c ∈ m.constraints, ∀ a : Var → ℚ, c.sat a ↔ P a

theorem ContainsCon.feasible_imp {m : LPModel} {P : (Var → ℚ) → Prop}
    (hc : ContainsCon m P) : ∀ a : Var → ℚ, m.Feasible a → P a := by
  rintro a ha
  rcases hc with ⟨c, hcm, hiff⟩
  exact (hiff a).mp (ha.1 c hcm)

theorem mem_dayModel_of_hour (fsqrt : ℚ → ℚ) (gen demand : List ℚ)
    (battery : BatteryDict) (grid : GridDict) (params : ParamsDict) (h : ℕ)
    (hh : h < gen.length) (c : Constraint)
    (hc : c ∈ dayHourCons gen demand (resolveDay fsqrt battery grid params)
      gen.length h) :
    c ∈ (dayModel fsqrt gen demand battery grid params).constraints := by
  unfold dayModel
  exact List.mem_cons_of_mem _
    (List.mem_flatMap.mpr ⟨h, List.mem_range.mpr hh, hc⟩)

theorem mem_microModel_of_hour (gen : List ℚ) (loads : LoadsDict)
    (battery : BatteryDict) (params : ParamsDict) (h : ℕ)
    (hh : h < gen.length) (c : Constraint)
    (hc : c ∈ microHourCons gen (microHosp gen.length loads)
      (microSchool gen.length loads) (microHomes gen.length loads)
      (resolveMicro battery params) gen.length h) :
    c ∈ (microModel gen loads battery params).constraints := by
  unfold microModel
  exact List.mem_cons_of_mem _
    (List.mem_flatMap.mpr ⟨h, List.mem_range.mpr hh, hc⟩)

/-- C3: In cost mode, for every hour h the emitted linear program contains the
energy-balance equality generation[h] + grid_import[h] + discharge[h] =
demand[h] + charge[h] + grid_export[h] + curtail[h] - unmet[h], so every
accepted solution satisfies this per-step balance exactly. -/
theorem C3_cost_energy_balance (fsqrt : ℚ → ℚ) (gen demand : List ℚ)
    (battery : BatteryDict) (grid : GridDict) (params : ParamsDict) (h : ℕ)
    (hh : h < gen.length) (hlen : gen.length ≤ demand.length) :
    ∃ m, build_milp_model fsqrt gen demand battery grid params = .ok m ∧
      ContainsCon m (fun a =>
        gen.getD h 0 + a (Var.grid_import h) + a (Var.discharge h) =
          demand.getD h 0 + a (Var.charge h) + a (Var.grid_export h) +
            a (Var.curtail h) - a (Var.unmet h)) ∧
      ∀ a : Var → ℚ, m.Feasible a →
        gen.getD h 0 + a (Var.grid_import h) + a (Var.discharge h) =
          demand.getD h 0 + a (Var.charge h) + a (Var.grid_export h) +
            a (Var.curtail h) - a (Var.unmet h) := by
  have hne : gen ≠ [] := by
    intro hnil
    rw [hnil] at hh
    simp at hh
  have hcon : ContainsCon (dayModel fsqrt gen demand battery grid params)
      (fun a =>
        gen.getD h 0 + a (Var.grid_import h) + a (Var.discharge h) =
          demand.getD h 0 + a (Var.charge h) + a (Var.grid_export h) +
            a (Var.curtail h) - a (Var.unmet h)) := by
    refine ⟨⟨.eq,
      LinExpr.ofConst (gen.getD h 0) + LinExpr.ofVar (.grid_import h) +
        LinExpr.ofVar (.discharge h),
      LinExpr.ofConst (demand.getD h 0) + LinExpr.ofVar (.charge h) +
        LinExpr.ofVar (.grid_export h) + LinExpr.ofVar (.curtail h) -
        LinExpr.ofVar (.unmet h)⟩,
      mem_dayModel_of_hour fsqrt gen demand battery grid params h hh _ ?_, ?_⟩
    · unfold dayHourCons
      exact List.mem_cons_self _ _
    · intro a
      show _ = _ ↔ _
      simp
  exact ⟨_, build_milp_model_ok fsqrt gen demand battery grid params hne hlen,
    hcon, hcon.feasible_imp⟩

/-- C1: In both cost mode and islanded mode, for every hour h with
0 <= h < H-1, the linear program emitted by the model builder contains the
equality constraint soc[h+1] = soc[h] + charge_efficiency*charge[h] -
discharge[h]/discharge_efficiency, so every accepted solution satisfies this
SOC recurrence between consecutive hours.  (Efficiencies are the builder's
resolved values; the discharge efficiency is assumed at least 1e-6 in cost
mode, where the builder clamps the denominator there, and nonzero in islanded
mode, where a zero value would abort the build.) -/
theorem C1_soc_recurrence (fsqrt : ℚ → ℚ) (gen demand : List ℚ)
    (loads : LoadsDict) (battery : BatteryDict) (grid : GridDict)
    (params : ParamsDict) (h : ℕ)
    (hh : h + 1 < gen.length)
    (hlen : gen.length ≤ demand.length)
    (hhosp : seriesLenOk gen.length loads.hospital_kWh)
    (hschool : seriesLenOk gen.length loads.school_kWh)
    (hhomes : seriesLenOk gen.length loads.homes_kWh)
    (hetaDay : 1/1000000 ≤ (resolveDay fsqrt battery grid params).eta_d)
    (hetaMic : (resolveMicro battery params).eta_d ≠ 0) :
    (∃ m, build_milp_model fsqrt gen demand battery grid params = .ok m ∧
      ContainsCon m (fun a =>
        a (Var.soc (h + 1)) = a (Var.soc h) +
          (resolveDay fsqrt battery grid params).eta_c * a (Var.charge h) -
          a (Var.discharge h) / (resolveDay fsqrt battery grid params).eta_d) ∧
      ∀ a : Var → ℚ, m.Feasible a →
        a (Var.soc (h + 1)) = a (Var.soc h) +
          (resolveDay fsqrt battery grid params).eta_c * a (Var.charge h) -
          a (Var.discharge h) / (resolveDay fsqrt battery grid params).eta_d) ∧
    (∃ m, build_microgrid_model gen loads battery params = .ok m ∧
      ContainsCon m (fun a =>
        a (Var.soc (h + 1)) = a (Var.soc h) +
          (resolveMicro battery params).eta_c * a (Var.charge h) -
          a (Var.discharge h) / (resolveMicro battery params).eta_d) ∧
      ∀ a : Var → ℚ, m.Feasible a →
        a (Var.soc (h + 1)) = a (Var.soc h) +
          (resolveMicro battery params).eta_c * a (Var.charge h) -
          a (Var.discharge h) / (resolveMicro battery params).eta_d) := by
  have hne : gen ≠ [] := by
    intro hnil
    rw [hnil] at hh
    simp at hh
  have hdyn : h < gen.length - 1 := by omega
  constructor
  · have hcon : ContainsCon (dayModel fsqrt gen demand battery grid params)
        (fun a =>
          a (Var.soc (h + 1)) = a (Var.soc h) +
            (resolveDay fsqrt battery grid params).eta_c * a (Var.charge h) -
            a (Var.discharge h) /
              (resolveDay fsqrt battery grid params).eta_d) := by
      refine ⟨⟨.eq, LinExpr.ofVar (.soc (h + 1)),
        LinExpr.ofVar (.soc h) +
          LinExpr.scale (resolveDay fsqrt battery grid params).eta_c
            (LinExpr.ofVar (.charge h)) -
          LinExpr.scale
            (max (resolveDay fsqrt battery grid params).eta_d (1/1000000))⁻¹
            (LinExpr.ofVar (.discharge h))⟩,
        mem_dayModel_of_hour fsqrt gen demand battery grid params h
          (by omega) _ ?_, ?_⟩
      · simp only [dayHourCons]
        rw [if_pos hdyn]
        simp
      · intro a
        show _ = _ ↔ _
        rw [max_eq_left hetaDay]
        simp [div_eq_inv_mul]
    exact ⟨_, build_milp_model_ok fsqrt gen demand battery grid params hne hlen,
      hcon, hcon.feasible_imp⟩
  · have hcon : ContainsCon (microModel gen loads battery params)
        (fun a =>
          a (Var.soc (h + 1)) = a (Var.soc h) +
            (resolveMicro battery params).eta_c * a (Var.charge h) -
            a (Var.discharge h) / (resolveMicro battery params).eta_d) := by
      refine ⟨⟨.eq, LinExpr.ofVar (.soc (h + 1)),
        LinExpr.ofVar (.soc h) +
          LinExpr.scale (resolveMicro battery params).eta_c
            (LinExpr.ofVar (.charge h)) -
          LinExpr.scale (resolveMicro battery params).eta_d⁻¹
            (LinExpr.ofVar (.discharge h))⟩,
        mem_microModel_of_hour gen loads battery params h (by omega) _ ?_, ?_⟩
      · simp only [microHourCons]
        rw [if_pos hdyn]
        simp
      · intro a
        show _ = _ ↔ _
        simp [div_eq_inv_mul]
    exact ⟨_, build_microgrid_model_ok gen loads battery params hne hhosp
      hschool hhomes (fun _ => hetaMic), hcon, hcon.feasible_imp⟩

/-- C6: In islanded mode, for every load class (hospital, school, homes) and
every hour h, the emitted linear program contains the equality
served[class][h] + unmet[class][h] = demand[class][h] (with demand the
builder's resolved series for that class), so every accepted solution splits
each class's demand exactly into served and unmet parts. -/
theorem C6_micro_load_split (gen : List ℚ) (loads : LoadsDict)
    (battery : BatteryDict) (params : ParamsDict) (h : ℕ)
    (hh : h < gen.length)
    (hhosp : seriesLenOk gen.length loads.hospital_kWh)
    (hschool : seriesLenOk gen.length loads.school_kWh)
    (hhomes : seriesLenOk gen.length loads.homes_kWh)
    (heta : 2 ≤ gen.length → (resolveMicro battery params).eta_d ≠ 0) :
    ∃ m, build_microgrid_model gen loads battery params = .ok m ∧
      (ContainsCon m (fun a =>
        a (Var.hospital_served h) + a (Var.hospital_unmet h) =
          (microHosp gen.length loads).getD h 0) ∧
       ContainsCon m (fun a =>
        a (Var.school_served h) + a (Var.school_unmet h) =
          (microSchool gen.length loads).getD h 0) ∧
       ContainsCon m (fun a =>
        a (Var.homes_served h) + a (Var.homes_unmet h) =
          (microHomes gen.length loads).getD h 0)) ∧
      ∀ a : Var → ℚ, m.Feasible a →
        (a (Var.hospital_served h) + a (Var.hospital_unmet h) =
          (microHosp gen.length loads).getD h 0 ∧
         a (Var.school_served h) + a (Var.school_unmet h) =
          (microSchool gen.length loads).getD h 0 ∧
         a (Var.homes_served h) + a (Var.homes_unmet h) =
          (microHomes gen.length loads).getD h 0) := by
  have hne : gen ≠ [] := by
    intro hnil
    rw [hnil] at hh
    simp at hh
  have hconH : ContainsCon (microModel gen loads battery params) (fun a =>
      a (Var.hospital_served h) + a (Var.hospital_unmet h) =
        (microHosp gen.length loads).getD h 0) := by
    refine ⟨⟨.eq,
      LinExpr.ofVar (.hospital_served h) + LinExpr.ofVar (.hospital_unmet h),
      LinExpr.ofConst ((microHosp gen.length loads).getD h 0)⟩,
      mem_microModel_of_hour gen loads battery params h hh _ ?_, ?_⟩
    · simp [microHourCons]
    · intro a
      show _ = _ ↔ _
      simp
  have hconS : ContainsCon (microModel gen loads battery params) (fun a =>
      a (Var.school_served h) + a (Var.school_unmet h) =
        (microSchool gen.length loads).getD h 0) := by
    refine ⟨⟨.eq,
      LinExpr.ofVar (.school_served h) + LinExpr.ofVar (.school_unmet h),
      LinExpr.ofConst ((microSchool gen.length loads).getD h 0)⟩,
      mem_microModel_of_hour gen loads battery params h hh _ ?_, ?_⟩
    · simp [microHourCons]
    · intro a
      show _ = _ ↔ _
      simp
  have hconM : ContainsCon (microModel gen loads battery params) (fun a =>
      a (Var.homes_served h) + a (Var.homes_unmet h) =
        (microHomes gen.length loads).getD h 0) := by
    refine ⟨⟨.eq,
      LinExpr.ofVar (.homes_served h) + LinExpr.ofVar (.homes_unmet h),
      LinExpr.ofConst ((microHomes gen.length loads).getD h 0)⟩,
      mem_microModel_of_hour gen loads battery params h hh _ ?_, ?_⟩
    · simp [microHourCons]
    · intro a
      show _ = _ ↔ _
      simp
  exact ⟨_, build_microgrid_model_ok gen loads battery params hne hhosp hschool
    hhomes heta, ⟨hconH, hconS, hconM⟩,
    fun a ha => ⟨hconH.feasible_imp a ha, hconS.feasible_imp a ha,
      hconM.feasible_imp a ha⟩⟩

/-- Total of a per-hour variable family over the horizon. -/
def seriesTot (a : Var → ℚ) (mk : ℕ → Var) (H : ℕ) : ℚ :=
  ((List.range H).map (fun h => a (mk h))).sum

theorem eval_foldl_add (l : List LinExpr) (e : LinExpr) (a : Var → ℚ) :
    (l.foldl (· + ·) e).eval a = e.eval a + (l.map (fun f => f.eval a)).sum := by
  induction l generalizing e with
  | nil => simp
  | cons x xs ih =>
    simp only [List.foldl_cons, List.map_cons, List.sum_cons, ih]
    simp [add_assoc]

theorem seriesTot_succ (a : Var → ℚ) (mk : ℕ → Var) (H : ℕ) :
    seriesTot a mk (H + 1) = seriesTot a mk H + a (mk H) := by
  simp [seriesTot, List.range_succ]

theorem microObjective_eval (H : ℕ) (cfg : MicroCfg) (a : Var → ℚ) :
    (microObjective H cfg).eval a =
      cfg.p_hospital * seriesTot a Var.hospital_unmet H +
      cfg.p_school * seriesTot a Var.school_unmet H +
      cfg.p_homes * seriesTot a Var.homes_unmet H +
      cfg.p_curtail * seriesTot a Var.curtail H +
      cfg.p_cycle * (seriesTot a Var.charge H + seriesTot a Var.discharge H) := by
  induction H with
  | zero => simp [microObjective, seriesTot]
  | succ n ih =>
    have hsplit : microObjective (n + 1) cfg =
        (microObjTerms cfg n).foldl (· + ·) (microObjective n cfg) := by
      unfold microObjective
      rw [List.range_succ, List.flatMap_append, List.foldl_append]
      simp [List.flatMap_cons]
    rw [hsplit, eval_foldl_add, ih]
    simp only [seriesTot_succ, microObjTerms, List.map_cons, List.map_nil,
      List.sum_cons, List.sum_nil, LinExpr.eval_scale, LinExpr.eval_ofVar,
      LinExpr.eval_add]
    ring

/-- The three islanded-mode load classes, in priority order. -/
inductive LoadClass where
  | hospital
  | school
  | homes
deriving DecidableEq

/-- The unmet-demand variable family of a load class. -/
def classUnmetVar : LoadClass → ℕ → Var
  | .hospital => Var.hospital_unmet
  | .school => Var.school_unmet
  | .homes => Var.homes_unmet

/-- Set one class's unmet-penalty key in the params dict. -/
def setClassWeight (cls : LoadClass) (w : ℚ) (p : ParamsDict) : ParamsDict :=
  match cls with
  | .hospital => { p with P_hospital_unmet := some w }
  | .school => { p with P_school_unmet := some w }
  | .homes => { p with P_homes_unmet := some w }

theorem resolveMicro_set_hospital (battery : BatteryDict) (p : ParamsDict)
    (w : ℚ) :
    resolveMicro battery (setClassWeight .hospital w p) =
      { resolveMicro battery p with p_hospital := w } := by
  simp [resolveMicro, setClassWeight]

theorem resolveMicro_set_school (battery : BatteryDict) (p : ParamsDict)
    (w : ℚ) :
    resolveMicro battery (setClassWeight .school w p) =
      { resolveMicro battery p with p_school := w } := by
  simp [resolveMicro, setClassWeight]

theorem resolveMicro_set_homes (battery : BatteryDict) (p : ParamsDict)
    (w : ℚ) :
    resolveMicro battery (setClassWeight .homes w p) =
      { resolveMicro battery p with p_homes := w } := by
  simp [resolveMicro, setClassWeight]

/-- The microgrid constraints and bounds do not read the penalty weights. -/
theorem microModel_penalty_irrel (gen : List ℚ) (cfg cfg' : MicroCfg)
    (h1 : cfg.capacity = cfg'.capacity) (h2 : cfg.soc0 = cfg'.soc0)
    (h3 : cfg.max_c = cfg'.max_c) (h4 : cfg.max_d = cfg'.max_d)
    (h5 : cfg.eta_c = cfg'.eta_c) (h6 : cfg.eta_d = cfg'.eta_d) :
    (microInitCon cfg = microInitCon cfg') ∧
    (∀ hosp school homes H h, microHourCons gen hosp school homes cfg H h =
      microHourCons gen hosp school homes cfg' H h) ∧
    (∀ H, microBounds H cfg.capacity = microBounds H cfg'.capacity) := by
  refine ⟨?_, ?_, ?_⟩
  · simp [microInitCon, h2]
  · intro hosp school homes H h
    simp [microHourCons, h3, h4, h5, h6]
  · intro H
    simp [h1]

theorem build_microgrid_model_ok_inv (gen : List ℚ) (loads : LoadsDict)
    (battery : BatteryDict) (params : ParamsDict) (m : LPModel)
    (hm : build_microgrid_model gen loads battery params = .ok m) :
    m = microModel gen loads battery params := by
  have hex : ∃ m, build_microgrid_model gen loads battery params = .ok m :=
    ⟨m, hm⟩
  rw [build_microgrid_model_isOk_iff] at hex
  obtain ⟨hne, hh, hs, hmm, he⟩ := hex
  rw [build_microgrid_model_ok gen loads battery params hne hh hs hmm he] at hm
  injection hm with h
  exact h.symm

/-- Exchange argument: if `a` minimizes `g + w·U` and `a'` minimizes
`g + w'·U` over the same feasible set, with `w < w'`, then `U a' ≤ U a`. -/
theorem weight_exchange (F : (Var → ℚ) → Prop) (g U : (Var → ℚ) → ℚ)
    (w w' : ℚ) (a a' : Var → ℚ) (ha : F a) (ha' : F a')
    (hopt : ∀ b, F b → g a + w * U a ≤ g b + w * U b)
    (hopt' : ∀ b, F b → g a' + w' * U a' ≤ g b + w' * U b)
    (hww : w < w') : U a' ≤ U a := by
  have h1 := hopt a' ha'
  have h2 := hopt' a ha
  by_contra hcon
  push_neg at hcon
  have hp : 0 < (w' - w) * (U a' - U a) :=
    mul_pos (by linarith) (by linarith)
  nlinarith [h1, h2, hp]

theorem microModel_setWeight_eq (gen : List ℚ) (loads : LoadsDict)
    (battery : BatteryDict) (p : ParamsDict) (cls : LoadClass) (w : ℚ) :
    (microModel gen loads battery (setClassWeight cls w p)).constraints =
      (microModel gen loads battery p).constraints ∧
    (microModel gen loads battery (setClassWeight cls w p)).bounds =
      (microModel gen loads battery p).bounds := by
  have hfields : (resolveMicro battery (setClassWeight cls w p)).capacity =
        (resolveMicro battery p).capacity ∧
      (resolveMicro battery (setClassWeight cls w p)).soc0 =
        (resolveMicro battery p).soc0 ∧
      (resolveMicro battery (setClassWeight cls w p)).max_c =
        (resolveMicro battery p).max_c ∧
      (resolveMicro battery (setClassWeight cls w p)).max_d =
        (resolveMicro battery p).max_d ∧
      (resolveMicro battery (setClassWeight cls w p)).eta_c =
        (resolveMicro battery p).eta_c ∧
      (resolveMicro battery (setClassWeight cls w p)).eta_d =
        (resolveMicro battery p).eta_d := by
    cases cls
    · rw [resolveMicro_set_hospital]
      exact ⟨rfl, rfl, rfl, rfl, rfl, rfl⟩
    · rw [resolveMicro_set_school]
      exact ⟨rfl, rfl, rfl, rfl, rfl, rfl⟩
    · rw [resolveMicro_set_homes]
      exact ⟨rfl, rfl, rfl, rfl, rfl, rfl⟩
  obtain ⟨h1, h2, h3, h4, h5, h6⟩ := hfields
  obtain ⟨hi, hc, hbnd⟩ := microModel_penalty_irrel gen
    (resolveMicro battery (setClassWeight cls w p)) (resolveMicro battery p)
    h1 h2 h3 h4 h5 h6
  constructor
  · show microInitCon _ :: _ = microInitCon _ :: _
    rw [hi]
    have hfun : microHourCons gen (microHosp gen.length loads)
        (microSchool gen.length loads) (microHomes gen.length loads)
        (resolveMicro battery (setClassWeight cls w p)) gen.length =
      microHourCons gen (microHosp gen.length loads)
        (microSchool gen.length loads) (microHomes gen.length loads)
        (resolveMicro battery p) gen.length := by
      funext h
      exact hc _ _ _ _ _
    rw [hfun]
  · exact hbnd gen.length

theorem microModel_setWeight_feasible (gen : List ℚ) (loads : LoadsDict)
    (battery : BatteryDict) (p : ParamsDict) (cls : LoadClass) (w : ℚ)
    (b : Var → ℚ) :
    (microModel gen loads battery (setClassWeight cls w p)).Feasible b ↔
      (microModel gen loads battery p).Feasible b := by
  obtain ⟨hcs, hbd⟩ := microModel_setWeight_eq gen loads battery p cls w
  unfold LPModel.Feasible
  rw [hcs, hbd]

/-- C8: In islanded mode, for every fixed generation, demand, and battery
input and every pair of penalty-weight settings that differ only by increasing
one class's unmet_penalty_weight, the optimal solution under the larger weight
has total unmet energy for that class no greater than under the smaller
weight. -/
theorem C8_weight_monotonicity (gen : List ℚ) (loads : LoadsDict)
    (battery : BatteryDict) (p : ParamsDict) (cls : LoadClass) (w w' : ℚ)
    (m m' : LPModel) (a a' : Var → ℚ)
    (hb : build_microgrid_model gen loads battery (setClassWeight cls w p) =
      .ok m)
    (hb' : build_microgrid_model gen loads battery (setClassWeight cls w' p) =
      .ok m')
    (hww : w < w')
    (hopt : m.Optimal a) (hopt' : m'.Optimal a') :
    seriesTot a' (classUnmetVar cls) gen.length ≤
      seriesTot a (classUnmetVar cls) gen.length := by
  have hm := build_microgrid_model_ok_inv _ _ _ _ _ hb
  have hm' := build_microgrid_model_ok_inv _ _ _ _ _ hb'
  subst hm
  subst hm'
  cases cls
  case hospital =>
    have hobj : ∀ (u : ℚ) (b : Var → ℚ),
        (microModel gen loads battery
          (setClassWeight .hospital u p)).objective.eval b =
        ((resolveMicro battery p).p_school *
            seriesTot b Var.school_unmet gen.length +
          (resolveMicro battery p).p_homes *
            seriesTot b Var.homes_unmet gen.length +
          (resolveMicro battery p).p_curtail *
            seriesTot b Var.curtail gen.length +
          (resolveMicro battery p).p_cycle *
            (seriesTot b Var.charge gen.length +
              seriesTot b Var.discharge gen.length)) +
          u * seriesTot b Var.hospital_unmet gen.length := by
      intro u b
      show (microObjective gen.length
        (resolveMicro battery (setClassWeight .hospital u p))).eval b = _
      rw [resolveMicro_set_hospital, microObjective_eval]
      ring
    exact weight_exchange (microModel gen loads battery p).Feasible _
      (fun b => seriesTot b Var.hospital_unmet gen.length) w w' a a'
      ((microModel_setWeight_feasible gen loads battery p _ w a).mp hopt.1)
      ((microModel_setWeight_feasible gen loads battery p _ w' a').mp hopt'.1)
      (fun b hbF => by
        have h := hopt.2 b
          ((microModel_setWeight_feasible gen loads battery p _ w b).mpr hbF)
        rw [hobj w a, hobj w b] at h
        exact h)
      (fun b hbF => by
        have h := hopt'.2 b
          ((microModel_setWeight_feasible gen loads battery p _ w' b).mpr hbF)
        rw [hobj w' a', hobj w' b] at h
        exact h)
      hww
  case school =>
    have hobj : ∀ (u : ℚ) (b : Var → ℚ),
        (microModel gen loads battery
          (setClassWeight .school u p)).objective.eval b =
        ((resolveMicro battery p).p_hospital *
            seriesTot b Var.hospital_unmet gen.length +
          (resolveMicro battery p).p_homes *
            seriesTot b Var.homes_unmet gen.length +
          (resolveMicro battery p).p_curtail *
            seriesTot b Var.curtail gen.length +
          (resolveMicro battery p).p_cycle *
            (seriesTot b Var.charge gen.length +
              seriesTot b Var.discharge gen.length)) +
          u * seriesTot b Var.school_unmet gen.length := by
      intro u b
      show (microObjective gen.length
        (resolveMicro battery (setClassWeight .school u p))).eval b = _
      rw [resolveMicro_set_school, microObjective_eval]
      ring
    exact weight_exchange (microModel gen loads battery p).Feasible _
      (fun b => seriesTot b Var.school_unmet gen.length) w w' a a'
      ((microModel_setWeight_feasible gen loads battery p _ w a).mp hopt.1)
      ((microModel_setWeight_feasible gen loads battery p _ w' a').mp hopt'.1)
      (fun b hbF => by
        have h := hopt.2 b
          ((microModel_setWeight_feasible gen loads battery p _ w b).mpr hbF)
        rw [hobj w a, hobj w b] at h
        exact h)
      (fun b hbF => by
        have h := hopt'.2 b
          ((microModel_setWeight_feasible gen loads battery p _ w' b).mpr hbF)
        rw [hobj w' a', hobj w' b] at h
        exact h)
      hww
  case homes =>
    have hobj : ∀ (u : ℚ) (b : Var → ℚ),
        (microModel gen loads battery
          (setClassWeight .homes u p)).objective.eval b =
        ((resolveMicro battery p).p_hospital *
            seriesTot b Var.hospital_unmet gen.length +
          (resolveMicro battery p).p_school *
            seriesTot b Var.school_unmet gen.length +
          (resolveMicro battery p).p_curtail *
            seriesTot b Var.curtail gen.length +
          (resolveMicro battery p).p_cycle *
            (seriesTot b Var.charge gen.length +
              seriesTot b Var.discharge gen.length)) +
          u * seriesTot b Var.homes_unmet gen.length := by
      intro u b
      show (microObjective gen.length
        (resolveMicro battery (setClassWeight .homes u p))).eval b = _
      rw [resolveMicro_set_homes, microObjective_eval]
      ring
    exact weight_exchange (microModel gen loads battery p).Feasible _
      (fun b => seriesTot b Var.homes_unmet gen.length) w w' a a'
      ((microModel_setWeight_feasible gen loads battery p _ w a).mp hopt.1)
      ((microModel_setWeight_feasible gen loads battery p _ w' a').mp hopt'.1)
      (fun b hbF => by
        have h := hopt.2 b
          ((microModel_setWeight_feasible gen loads battery p _ w b).mpr hbF)
        rw [hobj w a, hobj w b] at h
        exact h)
      (fun b hbF => by
        have h := hopt'.2 b
          ((microModel_setWeight_feasible gen loads battery p _ w' b).mpr hbF)
        rw [hobj w' a', hobj w' b] at h
        exact h)
      hww

/-- Loads for a one-hour witness instance: hospital 1 kWh, school and homes 0. -/
def microWLoads : LoadsDict := ⟨some [1], some [0], some [0]⟩

/-- A dead battery for the witness instance: zero capacity, SOC and rates. -/
def microWBattery : BatteryDict := ⟨some 0, some 0, some 0, some 0, none⟩

/-- The dispatch that serves nothing and leaves the hospital demand unmet. -/
def microWAssign : Var → ℚ := fun v => if v = Var.hospital_unmet 0 then 1 else 0

theorem microW_constraints (w : ℚ) :
    (microModel [0] microWLoads microWBattery
      (setClassWeight .hospital w ({} : ParamsDict))).constraints =
    [⟨.eq, LinExpr.ofVar (.soc 0), LinExpr.ofConst 0⟩,
     ⟨.eq, LinExpr.ofConst 0 + LinExpr.ofVar (.discharge 0),
       LinExpr.ofVar (.charge 0) +
         (LinExpr.ofVar (.hospital_served 0) + LinExpr.ofVar (.school_served 0) +
           LinExpr.ofVar (.homes_served 0)) + LinExpr.ofVar (.curtail 0)⟩,
     ⟨.eq, LinExpr.ofVar (.hospital_served 0) + LinExpr.ofVar (.hospital_unmet 0),
       LinExpr.ofConst 1⟩,
     ⟨.eq, LinExpr.ofVar (.school_served 0) + LinExpr.ofVar (.school_unmet 0),
       LinExpr.ofConst 0⟩,
     ⟨.eq, LinExpr.ofVar (.homes_served 0) + LinExpr.ofVar (.homes_unmet 0),
       LinExpr.ofConst 0⟩,
     ⟨.le, LinExpr.ofVar (.charge 0), LinExpr.ofConst 0⟩,
     ⟨.le, LinExpr.ofVar (.discharge 0), LinExpr.ofConst 0⟩] := rfl

theorem microW_bounds (w : ℚ) :
    (microModel [0] microWLoads microWBattery
      (setClassWeight .hospital w ({} : ParamsDict))).bounds =
    [⟨.charge 0, 0, none⟩, ⟨.discharge 0, 0, none⟩, ⟨.soc 0, 0, some 0⟩,
     ⟨.hospital_served 0, 0, none⟩, ⟨.school_served 0, 0, none⟩,
     ⟨.homes_served 0, 0, none⟩, ⟨.hospital_unmet 0, 0, none⟩,
     ⟨.school_unmet 0, 0, none⟩, ⟨.homes_unmet 0, 0, none⟩,
     ⟨.curtail 0, 0, none⟩] := rfl

theorem microW_eval (w : ℚ) (b : Var → ℚ)
    (hb : (microModel [0] microWLoads microWBattery
      (setClassWeight .hospital w ({} : ParamsDict))).Feasible b) :
    (microModel [0] microWLoads microWBattery
      (setClassWeight .hospital w ({} : ParamsDict))).objective.eval b = w := by
  obtain ⟨hc, hbd⟩ := hb
  rw [microW_constraints] at hc
  rw [microW_bounds] at hbd
  simp only [List.forall_mem_cons] at hc hbd
  obtain ⟨h1, h2, h3, h4, h5, h6, h7, -⟩ := hc
  obtain ⟨hbch, hbdis, hbsoc, hbhs, hbss, hbhos, hbhu, hbsu, hbhou, hbcur, -⟩ :=
    hbd
  simp only [Constraint.sat, LinExpr.eval_add, LinExpr.eval_ofVar,
    LinExpr.eval_ofConst] at h1 h2 h3 h4 h5 h6 h7
  simp only [VarBound.sat, Option.getD] at hbch hbdis hbsoc hbhs hbss hbhos hbhu hbsu hbhou hbcur
  have hch0 : b (Var.charge 0) = 0 := le_antisymm h6 hbch.1
  have hdis0 : b (Var.discharge 0) = 0 := le_antisymm h7 hbdis.1
  have hhs0 : b (Var.hospital_served 0) = 0 := by
    have hs1 := hbss.1
    have hs2 := hbhos.1
    have hs3 := hbcur.1
    have hs4 := hbhs.1
    linarith
  have hss0 : b (Var.school_served 0) = 0 := by
    have hs1 := hbhs.1
    have hs2 := hbhos.1
    have hs3 := hbcur.1
    have hs4 := hbss.1
    linarith
  have hhos0 : b (Var.homes_served 0) = 0 := by
    have hs1 := hbhs.1
    have hs2 := hbss.1
    have hs3 := hbcur.1
    have hs4 := hbhos.1
    linarith
  have hcur0 : b (Var.curtail 0) = 0 := by
    have hs1 := hbhs.1
    have hs2 := hbss.1
    have hs3 := hbhos.1
    have hs4 := hbcur.1
    linarith
  have hhu1 : b (Var.hospital_unmet 0) = 1 := by linarith
  have hsu0 : b (Var.school_unmet 0) = 0 := by
    have hs1 := hbsu.1
    linarith
  have hhou0 : b (Var.homes_unmet 0) = 0 := by
    have hs1 := hbhou.1
    linarith
  show (microObjective ([0] : List ℚ).length
    (resolveMicro microWBattery
      (setClassWeight .hospital w ({} : ParamsDict)))).eval b = w
  rw [resolveMicro_set_hospital, microObjective_eval]
  have hr1 : List.range (0 + 1) = [0] := rfl
  simp only [seriesTot, List.length_cons, List.length_nil, hr1, List.map_cons,
    List.map_nil, List.sum_cons, List.sum_nil]
  rw [hch0, hdis0, hcur0, hhu1, hsu0, hhou0]
  norm_num [resolveMicro]

theorem microW_optimal (w : ℚ) :
    (microModel [0] microWLoads microWBattery
      (setClassWeight .hospital w ({} : ParamsDict))).Optimal microWAssign := by
  have hfeas : (microModel [0] microWLoads microWBattery
      (setClassWeight .hospital w ({} : ParamsDict))).Feasible microWAssign := by
    constructor
    · rw [microW_constraints]
      intro c hcm
      simp only [List.mem_cons, List.not_mem_nil, or_false] at hcm
      rcases hcm with rfl | rfl | rfl | rfl | rfl | rfl | rfl <;>
        simp [Constraint.sat, microWAssign]
    · rw [microW_bounds]
      intro bd hbm
      simp only [List.mem_cons, List.not_mem_nil, or_false] at hbm
      rcases hbm with rfl | rfl | rfl | rfl | rfl | rfl | rfl | rfl | rfl | rfl <;>
        simp [VarBound.sat, microWAssign]
  refine ⟨hfeas, fun b hb => ?_⟩
  rw [microW_eval w b hb, microW_eval w microWAssign hfeas]

/-- Witness for C8: on a one-hour dead-battery instance with hospital demand 1,
the no-dispatch assignment is optimal under hospital weights 5 and 7, and the
monotonicity conclusion holds. -/
theorem C8_weight_monotonicity_witness :
    build_microgrid_model [0] microWLoads microWBattery
        (setClassWeight .hospital 5 ({} : ParamsDict)) =
      .ok (microModel [0] microWLoads microWBattery
        (setClassWeight .hospital 5 ({} : ParamsDict))) ∧
    build_microgrid_model [0] microWLoads microWBattery
        (setClassWeight .hospital 7 ({} : ParamsDict)) =
      .ok (microModel [0] microWLoads microWBattery
        (setClassWeight .hospital 7 ({} : ParamsDict))) ∧
    ((5 : ℚ) < 7) ∧
    (microModel [0] microWLoads microWBattery
      (setClassWeight .hospital 5 ({} : ParamsDict))).Optimal microWAssign ∧
    (microModel [0] microWLoads microWBattery
      (setClassWeight .hospital 7 ({} : ParamsDict))).Optimal microWAssign ∧
    seriesTot microWAssign (classUnmetVar .hospital) ([0] : List ℚ).length ≤
      seriesTot microWAssign (classUnmetVar .hospital) ([0] : List ℚ).length := by
  have hb5 : build_microgrid_model [0] microWLoads microWBattery
      (setClassWeight .hospital 5 ({} : ParamsDict)) =
    .ok (microModel [0] microWLoads microWBattery
      (setClassWeight .hospital 5 ({} : ParamsDict))) :=
    build_microgrid_model_ok _ _ _ _ (by simp) (by decide) (by decide)
      (by decide) (fun _ => by norm_num [resolveMicro, setClassWeight, microWBattery])
  have hb7 : build_microgrid_model [0] microWLoads microWBattery
      (setClassWeight .hospital 7 ({} : ParamsDict)) =
    .ok (microModel [0] microWLoads microWBattery
      (setClassWeight .hospital 7 ({} : ParamsDict))) :=
    build_microgrid_model_ok _ _ _ _ (by simp) (by decide) (by decide)
      (by decide) (fun _ => by norm_num [resolveMicro, setClassWeight, microWBattery])
  exact ⟨hb5, hb7, by norm_num, microW_optimal 5, microW_optimal 7,
    C8_weight_monotonicity [0] microWLoads microWBattery {} .hospital 5 7 _ _
      microWAssign microWAssign hb5 hb7 (by norm_num) (microW_optimal 5)
      (microW_optimal 7)⟩

/-- C2 counterexample: in islanded mode with capacity 20 and soc0 25, the
emitted program's initial-SOC constraint forces soc[0] = 25 (the raw value),
and no constraint of the program is equivalent to soc[0] = clamp(25,0,20) = 20,
so the claim that both modes clamp is false at this input. -/
theorem C2_counterexample :
    ∃ m, build_microgrid_model [1] ⟨some [1], some [1], some [1]⟩
        ⟨some 20, some 25, none, none, none⟩ ({} : ParamsDict) = .ok m ∧
      ContainsCon m (fun a => a (Var.soc 0) = 25) ∧
      max 0 (min (20 : ℚ) 25) = 20 ∧ (25 : ℚ) ≠ 20 ∧
      ¬ ContainsCon m (fun a => a (Var.soc 0) = 20) := by
  refine ⟨microModel [1] ⟨some [1], some [1], some [1]⟩
      ⟨some 20, some 25, none, none, none⟩ ({} : ParamsDict),
    build_microgrid_model_ok _ _ _ _ (by simp) (by decide) (by decide)
      (by decide) (fun h2 => absurd h2 (by norm_num)), ?_, by norm_num,
    by norm_num, ?_⟩
  · refine ⟨⟨.eq, LinExpr.ofVar (.soc 0), LinExpr.ofConst 25⟩,
      List.mem_cons_self _ _, ?_⟩
    intro a
    show _ = _ ↔ _
    simp
  · rintro ⟨c, hcm, hiff⟩
    have hlist : (microModel [1] ⟨some [1], some [1], some [1]⟩
        ⟨some 20, some 25, none, none, none⟩ ({} : ParamsDict)).constraints =
      [⟨.eq, LinExpr.ofVar (.soc 0), LinExpr.ofConst 25⟩,
       ⟨.eq, LinExpr.ofConst 1 + LinExpr.ofVar (.discharge 0),
         LinExpr.ofVar (.charge 0) +
           (LinExpr.ofVar (.hospital_served 0) +
            LinExpr.ofVar (.school_served 0) +
            LinExpr.ofVar (.homes_served 0)) + LinExpr.ofVar (.curtail 0)⟩,
       ⟨.eq, LinExpr.ofVar (.hospital_served 0) +
          LinExpr.ofVar (.hospital_unmet 0), LinExpr.ofConst 1⟩,
       ⟨.eq, LinExpr.ofVar (.school_served 0) +
          LinExpr.ofVar (.school_unmet 0), LinExpr.ofConst 1⟩,
       ⟨.eq, LinExpr.ofVar (.homes_served 0) +
          LinExpr.ofVar (.homes_unmet 0), LinExpr.ofConst 1⟩,
       ⟨.le, LinExpr.ofVar (.charge 0), LinExpr.ofConst 5⟩,
       ⟨.le, LinExpr.ofVar (.discharge 0), LinExpr.ofConst 5⟩] := rfl
    rw [hlist] at hcm
    simp only [List.mem_cons, List.not_mem_nil, or_false] at hcm
    rcases hcm with rfl | rfl | rfl | rfl | rfl | rfl | rfl
    · exact absurd ((hiff (fun _ => 20)).mpr (by norm_num))
        (by norm_num [Constraint.sat])
    · exact absurd ((hiff (fun v => match v with
        | .discharge _ => 1
        | _ => 20)).mpr (by norm_num)) (by norm_num [Constraint.sat])
    · exact absurd ((hiff (fun v => match v with
        | .hospital_unmet _ => 9
        | _ => 20)).mpr (by norm_num)) (by norm_num [Constraint.sat])
    · exact absurd ((hiff (fun v => match v with
        | .school_unmet _ => 9
        | _ => 20)).mpr (by norm_num)) (by norm_num [Constraint.sat])
    · exact absurd ((hiff (fun v => match v with
        | .homes_unmet _ => 9
        | _ => 20)).mpr (by norm_num)) (by norm_num [Constraint.sat])
    · exact absurd ((hiff (fun _ => 20)).mpr (by norm_num))
        (by norm_num [Constraint.sat])
    · exact absurd ((hiff (fun _ => 20)).mpr (by norm_num))
        (by norm_num [Constraint.sat])

/-- C2 amended: the cost-mode builder fixes soc[0] = clamp(initial_soc_kWh, 0,
capacity_kWh), but the islanded builder fixes soc[0] to the raw
initial_soc_kWh with no clamping. -/
theorem C2_initial_soc_amended (fsqrt : ℚ → ℚ) (gen demand : List ℚ)
    (loads : LoadsDict) (battery : BatteryDict) (grid : GridDict)
    (params : ParamsDict)
    (hne : gen ≠ []) (hlen : gen.length ≤ demand.length)
    (hhosp : seriesLenOk gen.length loads.hospital_kWh)
    (hschool : seriesLenOk gen.length loads.school_kWh)
    (hhomes : seriesLenOk gen.length loads.homes_kWh)
    (heta : 2 ≤ gen.length → (resolveMicro battery params).eta_d ≠ 0) :
    (∃ m, build_milp_model fsqrt gen demand battery grid params = .ok m ∧
      ContainsCon m (fun a => a (Var.soc 0) =
        max 0 (min (resolveDay fsqrt battery grid params).capacity
          (resolveDay fsqrt battery grid params).soc0))) ∧
    (∃ m, build_microgrid_model gen loads battery params = .ok m ∧
      ContainsCon m (fun a => a (Var.soc 0) =
        (resolveMicro battery params).soc0)) := by
  constructor
  · refine ⟨_, build_milp_model_ok fsqrt gen demand battery grid params hne
      hlen, ⟨dayInitCon (resolveDay fsqrt battery grid params),
      List.mem_cons_self _ _, ?_⟩⟩
    intro a
    show _ = _ ↔ _
    simp [dayInitCon]
  · refine ⟨_, build_microgrid_model_ok gen loads battery params hne hhosp
      hschool hhomes heta, ⟨microInitCon (resolveMicro battery params),
      List.mem_cons_self _ _, ?_⟩⟩
    intro a
    show _ = _ ↔ _
    simp [microInitCon]

/-- Witness for the amended C2 at a concrete one-hour input with defaults. -/
theorem C2_initial_soc_amended_witness :
    (∃ m, build_milp_model (fun q => q) [1] [1] {} {} {} = .ok m ∧
      ContainsCon m (fun a => a (Var.soc 0) =
        max 0 (min (resolveDay (fun q => q) {} {} {}).capacity
          (resolveDay (fun q => q) {} {} {}).soc0))) ∧
    (∃ m, build_microgrid_model [1] {} {} {} = .ok m ∧
      ContainsCon m (fun a => a (Var.soc 0) =
        (resolveMicro {} {}).soc0)) :=
  C2_initial_soc_amended (fun q => q) [1] [1] {} {} {} {} (by simp)
    (le_refl 1) trivial trivial trivial
    (fun _ => by norm_num [resolveMicro])

/-- C7 counterexample: with eta_discharge = 0 and a two-hour horizon, the
islanded builder hits the unguarded division discharge[0]/eta_d of
microgrid_model.py line 92 and raises ZeroDivisionError; the division is not
guarded by any clamp, so the claim is false at this input. -/
theorem C7_counterexample :
    build_microgrid_model [1, 1] ({} : LoadsDict) ({} : BatteryDict)
      { eta_discharge := some 0 } = .error .zeroDivisionError := rfl

theorem hoursLoop_error_head (step : ℕ → Except PyError (List Constraint))
    (x : ℕ) (xs : List ℕ) (acc : List Constraint) (e : PyError)
    (hx : step x = .error e) : hoursLoop step (x :: xs) acc = .error e := by
  simp [hoursLoop, hx]

/-- C7 amended: the cost-mode SOC recurrence divides by max(eta_d, 1e-6), a
denominator clamped strictly positive for every input; the islanded SOC
recurrence divides by the raw eta_d, and the builder raises ZeroDivisionError
whenever eta_d = 0 and the horizon reaches the recurrence. -/
theorem C7_denominator_amended (fsqrt : ℚ → ℚ) (gen demand : List ℚ)
    (loads : LoadsDict) (battery : BatteryDict) (grid : GridDict)
    (params : ParamsDict) (h : ℕ)
    (hh : h + 1 < gen.length) (hlen : gen.length ≤ demand.length)
    (hhosp : seriesLenOk gen.length loads.hospital_kWh)
    (hschool : seriesLenOk gen.length loads.school_kWh)
    (hhomes : seriesLenOk gen.length loads.homes_kWh) :
    (0 < max (resolveDay fsqrt battery grid params).eta_d (1/1000000) ∧
     ∃ m, build_milp_model fsqrt gen demand battery grid params = .ok m ∧
       ContainsCon m (fun a =>
         a (Var.soc (h + 1)) = a (Var.soc h) +
           (resolveDay fsqrt battery grid params).eta_c * a (Var.charge h) -
           a (Var.discharge h) /
             max (resolveDay fsqrt battery grid params).eta_d (1/1000000))) ∧
    ((resolveMicro battery params).eta_d = 0 →
      build_microgrid_model gen loads battery params =
        .error .zeroDivisionError) := by
  have hne : gen ≠ [] := by
    intro hnil
    rw [hnil] at hh
    simp at hh
  have hdyn : h < gen.length - 1 := by omega
  constructor
  · refine ⟨lt_max_of_lt_right (by norm_num), ?_⟩
    have hcon : ContainsCon (dayModel fsqrt gen demand battery grid params)
        (fun a =>
          a (Var.soc (h + 1)) = a (Var.soc h) +
            (resolveDay fsqrt battery grid params).eta_c * a (Var.charge h) -
            a (Var.discharge h) /
              max (resolveDay fsqrt battery grid params).eta_d
                (1/1000000)) := by
      refine ⟨⟨.eq, LinExpr.ofVar (.soc (h + 1)),
        LinExpr.ofVar (.soc h) +
          LinExpr.scale (resolveDay fsqrt battery grid params).eta_c
            (LinExpr.ofVar (.charge h)) -
          LinExpr.scale
            (max (resolveDay fsqrt battery grid params).eta_d (1/1000000))⁻¹
            (LinExpr.ofVar (.discharge h))⟩,
        mem_dayModel_of_hour fsqrt gen demand battery grid params h
          (by omega) _ ?_, ?_⟩
      · simp only [dayHourCons]
        rw [if_pos hdyn]
        simp
      · intro a
        show _ = _ ↔ _
        simp [div_eq_inv_mul]
    exact ⟨_,
      build_milp_model_ok fsqrt gen demand battery grid params hne hlen, hcon⟩
  · intro heta0
    have hH2 : 2 ≤ gen.length := by omega
    obtain ⟨k, hk⟩ : ∃ k, gen.length = k + 1 := ⟨gen.length - 1, by omega⟩
    have hlh : gen.length ≤ (microHosp gen.length loads).length :=
      seriesLenOk_getD _ _ _ (by simp) hhosp
    have hls : gen.length ≤ (microSchool gen.length loads).length :=
      seriesLenOk_getD _ _ _ (by simp) hschool
    have hlm : gen.length ≤ (microHomes gen.length loads).length :=
      seriesLenOk_getD _ _ _ (by simp) hhomes
    have hstep : microHourStep gen (microHosp gen.length loads)
        (microSchool gen.length loads) (microHomes gen.length loads)
        (resolveMicro battery params) gen.length 0 =
        .error .zeroDivisionError := by
      unfold microHourStep
      rw [if_neg (by omega), if_neg (by omega), if_neg (by omega),
        if_pos ⟨by omega, heta0⟩]
    unfold build_microgrid_model
    rw [if_neg (by omega)]
    rw [show List.range gen.length = 0 :: (List.range k).map Nat.succ by
      rw [hk, List.range_succ_eq_map]]
    rw [hoursLoop_error_head _ _ _ _ _ hstep]

/-- Witness for the amended C7: with eta_discharge = 0, the cost-mode build
succeeds with the clamped denominator 1e-6 while the islanded build raises
ZeroDivisionError. -/
theorem C7_denominator_amended_witness :
    (0 < max (resolveDay (fun q => q) {} {}
        { eta_discharge := some 0 }).eta_d (1/1000000) ∧
     ∃ m, build_milp_model (fun q => q) [1, 1] [1, 1] {} {}
        { eta_discharge := some 0 } = .ok m ∧
       ContainsCon m (fun a =>
         a (Var.soc 1) = a (Var.soc 0) +
           (resolveDay (fun q => q) {} {}
             { eta_discharge := some 0 }).eta_c * a (Var.charge 0) -
           a (Var.discharge 0) /
             max (resolveDay (fun q => q) {} {}
               { eta_discharge := some 0 }).eta_d (1/1000000))) ∧
    build_microgrid_model [1, 1] {} {} { eta_discharge := some 0 } =
      .error .zeroDivisionError := by
  obtain ⟨hday, hmic⟩ := C7_denominator_amended (fun q => q) [1, 1] [1, 1] {}
    {} {} { eta_discharge := some 0 } 0 (by norm_num) (le_refl 2) trivial
    trivial trivial
  exact ⟨hday, hmic (by norm_num [resolveMicro])⟩

/-- Witness for C1 at a concrete two-hour input with default parameters. -/
theorem C1_soc_recurrence_witness :
    (∃ m, build_milp_model (fun q => q) [1, 1] [1, 1] {} {} {} = .ok m ∧
      ContainsCon m (fun a =>
        a (Var.soc 1) = a (Var.soc 0) +
          (resolveDay (fun q => q) {} {} {}).eta_c * a (Var.charge 0) -
          a (Var.discharge 0) / (resolveDay (fun q => q) {} {} {}).eta_d) ∧
      ∀ a : Var → ℚ, m.Feasible a →
        a (Var.soc 1) = a (Var.soc 0) +
          (resolveDay (fun q => q) {} {} {}).eta_c * a (Var.charge 0) -
          a (Var.discharge 0) / (resolveDay (fun q => q) {} {} {}).eta_d) ∧
    (∃ m, build_microgrid_model [1, 1] {} {} {} = .ok m ∧
      ContainsCon m (fun a =>
        a (Var.soc 1) = a (Var.soc 0) +
          (resolveMicro {} {}).eta_c * a (Var.charge 0) -
          a (Var.discharge 0) / (resolveMicro {} {}).eta_d) ∧
      ∀ a : Var → ℚ, m.Feasible a →
        a (Var.soc 1) = a (Var.soc 0) +
          (resolveMicro {} {}).eta_c * a (Var.charge 0) -
          a (Var.discharge 0) / (resolveMicro {} {}).eta_d) :=
  C1_soc_recurrence (fun q => q) [1, 1] [1, 1] {} {} {} {} 0 (by norm_num)
    (le_refl 2) trivial trivial trivial (by norm_num [resolveDay])
    (by norm_num [resolveMicro])

/-- Witness for C3 at a concrete one-hour input. -/
theorem C3_cost_energy_balance_witness :
    ∃ m, build_milp_model (fun q => q) [2] [3] {} {} {} = .ok m ∧
      ContainsCon m (fun a =>
        ([2] : List ℚ).getD 0 0 + a (Var.grid_import 0) + a (Var.discharge 0) =
          ([3] : List ℚ).getD 0 0 + a (Var.charge 0) + a (Var.grid_export 0) +
            a (Var.curtail 0) - a (Var.unmet 0)) ∧
      ∀ a : Var → ℚ, m.Feasible a →
        ([2] : List ℚ).getD 0 0 + a (Var.grid_import 0) + a (Var.discharge 0) =
          ([3] : List ℚ).getD 0 0 + a (Var.charge 0) + a (Var.grid_export 0) +
            a (Var.curtail 0) - a (Var.unmet 0) :=
  C3_cost_energy_balance (fun q => q) [2] [3] {} {} {} 0 (by norm_num)
    (le_refl 1)

/-- Witness for C6 at a concrete one-hour input with default loads. -/
theorem C6_micro_load_split_witness :
    ∃ m, build_microgrid_model [1] {} {} {} = .ok m ∧
      (ContainsCon m (fun a =>
        a (Var.hospital_served 0) + a (Var.hospital_unmet 0) =
          (microHosp ([1] : List ℚ).length {}).getD 0 0) ∧
       ContainsCon m (fun a =>
        a (Var.school_served 0) + a (Var.school_unmet 0) =
          (microSchool ([1] : List ℚ).length {}).getD 0 0) ∧
       ContainsCon m (fun a =>
        a (Var.homes_served 0) + a (Var.homes_unmet 0) =
          (microHomes ([1] : List ℚ).length {}).getD 0 0)) ∧
      ∀ a : Var → ℚ, m.Feasible a →
        (a (Var.hospital_served 0) + a (Var.hospital_unmet 0) =
          (microHosp ([1] : List ℚ).length {}).getD 0 0 ∧
         a (Var.school_served 0) + a (Var.school_unmet 0) =
          (microSchool ([1] : List ℚ).length {}).getD 0 0 ∧
         a (Var.homes_served 0) + a (Var.homes_unmet 0) =
          (microHomes ([1] : List ℚ).length {}).getD 0 0) :=
  C6_micro_load_split [1] {} {} {} 0 (by norm_num) trivial trivial trivial
    (fun _ => by norm_num [resolveMicro])

/-- C4 counterexample: a negative capacity, a negative charge rate, and a
demand series longer than the generation series are all accepted: the builder
(with the full float semantics of its efficiency resolution) returns a built
program and raises nothing, instead of failing with a ValidationError as the
claim requires. -/
theorem C4_counterexample :
    build_milp_model_full (fun q => q) [1] [1, 2]
      { capacity_kWh := some (-5), max_charge_rate_kW := some (-3) } {} {} =
    .ok (dayModel (fun q => q) [1] [1, 2]
      { capacity_kWh := some (-5), max_charge_rate_kW := some (-3) } {} {}) := by
  unfold build_milp_model_full
  rw [if_neg (fun hET => absurd hET.1
    (by norm_num : ¬ ((95 : ℚ)/100 < 0)))]
  exact build_milp_model_ok _ _ _ _ _ _ (by simp) (by norm_num)

/-- C4 amended: the builders perform no input validation and no
ValidationError exists; negative rates and capacities and over-long series
are accepted.  The failures are ordinary Python runtime errors: the cost-mode
build raises TypeError exactly on a negative round-trip efficiency with an
absent eta key (float of the complex default eta_rt ** 0.5), and otherwise
fails exactly when the generation series is empty or the demand series is
shorter than it (IndexError); the islanded build, which computes no square
root, fails exactly when the generation series is empty, a provided load
series is shorter than it, or eta_discharge is 0 with the horizon reaching
the SOC recurrence (IndexError / ZeroDivisionError), and it accepts zero
provided load classes by substituting defaults. -/
theorem C4_no_validation_amended (fsqrt : ℚ → ℚ) (gen demand : List ℚ)
    (loads : LoadsDict) (battery : BatteryDict) (grid : GridDict)
    (params : ParamsDict) :
    (dayEtaTypeError battery params →
      build_milp_model_full fsqrt gen demand battery grid params =
        .error .typeError) ∧
    ((∃ m, build_milp_model_full fsqrt gen demand battery grid params =
        .ok m) ↔
      (¬ dayEtaTypeError battery params ∧ gen ≠ [] ∧
        gen.length ≤ demand.length)) ∧
    ((∃ m, build_microgrid_model gen loads battery params = .ok m) ↔
      (gen ≠ [] ∧ seriesLenOk gen.length loads.hospital_kWh ∧
        seriesLenOk gen.length loads.school_kWh ∧
        seriesLenOk gen.length loads.homes_kWh ∧
        (2 ≤ gen.length → (resolveMicro battery params).eta_d ≠ 0))) := by
  refine ⟨?_, ?_, build_microgrid_model_isOk_iff gen loads battery params⟩
  · intro hET
    unfold build_milp_model_full
    rw [if_pos hET]
  · unfold build_milp_model_full
    by_cases hET : dayEtaTypeError battery params
    · rw [if_pos hET]
      simp [hET]
    · rw [if_neg hET]
      rw [build_milp_model_isOk_iff]
      simp [hET]

/-- Witness for the amended C4: with round_trip_efficiency = -1 and both eta
keys absent the cost-mode build raises TypeError, and with everything left at
defaults both builds succeed without any validation. -/
theorem C4_no_validation_amended_witness :
    dayEtaTypeError { round_trip_efficiency := some (-1) }
      ({} : ParamsDict) ∧
    build_milp_model_full (fun q => q) [1] [1]
      { round_trip_efficiency := some (-1) } {} {} = .error .typeError ∧
    (∃ m, build_milp_model_full (fun q => q) [1] [1] {} {} {} = .ok m) ∧
    (∃ m, build_microgrid_model [1] {} {} {} = .ok m) := by
  have hET : dayEtaTypeError { round_trip_efficiency := some (-1) }
      ({} : ParamsDict) :=
    ⟨show (-1 : ℚ) < 0 by norm_num, Or.inl rfl⟩
  refine ⟨hET, (C4_no_validation_amended (fun q => q) [1] [1] {}
    { round_trip_efficiency := some (-1) } {} {}).1 hET, ?_, ?_⟩
  · exact ((C4_no_validation_amended (fun q => q) [1] [1] {} {} {} {}).2.1).mpr
      ⟨fun h => absurd h.1 (by norm_num : ¬ ((95 : ℚ)/100 < 0)), by simp,
        le_refl 1⟩
  · exact ((C4_no_validation_amended (fun q => q) [1] [1] {} {} {} {}).2.2).mpr
      ⟨by simp, trivial, trivial, trivial,
        fun _ => by norm_num [resolveMicro]⟩

/-- C5 counterexample: with a non-Optimal reported status, the decoder still
extracts every numeric field unconditionally.  With solver values present it
returns fabricated numbers (zeros here) instead of None/absent fields, and
with values absent it raises TypeError instead of returning a result. -/
theorem C5_counterexample :
    solve_day_decode 1 "Infeasible" (fun _ => some 0) (some 0) =
      .ok { status := "Infeasible", total_cost := 0, charge_kWh := [0],
            discharge_kWh := [0], grid_import_kWh := [0],
            grid_export_kWh := [0], soc_kWh := [0], unmet_kWh := [0],
            curtail_kWh := [0] } ∧
    solve_day_decode 1 "Infeasible" (fun _ => none) none =
      .error .typeError := ⟨rfl, rfl⟩

/-- C5 amended: both decoders pass the reported status through unchanged and
never branch on it: the decode result is the Optimal-status decode with only
the status field replaced.  Numeric fields are always extracted from the
solver values (TypeError when a value is None), never set to None/absent. -/
theorem C5_decoder_amended (H : ℕ) (status : String) (value : Var → Option ℚ)
    (objValue : Option ℚ) :
    solve_day_decode H status value objValue =
      (solve_day_decode H "Optimal" value objValue).map
        (fun r => { r with status := status }) ∧
    solve_microgrid_decode H status value objValue =
      (solve_microgrid_decode H "Optimal" value objValue).map
        (fun r => { r with status := status }) := by
  constructor
  · unfold solve_day_decode
    cases extractSeries value Var.charge H
    · rfl
    cases extractSeries value Var.discharge H
    · rfl
    cases extractSeries value Var.grid_import H
    · rfl
    cases extractSeries value Var.grid_export H
    · rfl
    cases extractSeries value Var.soc H
    · rfl
    cases extractSeries value Var.unmet H
    · rfl
    cases extractSeries value Var.curtail H
    · rfl
    cases floatOfValue objValue
    · rfl
    · rfl
  · unfold solve_microgrid_decode
    cases extractSeries value Var.charge H
    · rfl
    cases extractSeries value Var.discharge H
    · rfl
    cases extractSeries value Var.soc H
    · rfl
    cases extractSeries value Var.hospital_served H
    · rfl
    cases extractSeries value Var.school_served H
    · rfl
    cases extractSeries value Var.homes_served H
    · rfl
    cases extractSeries value Var.hospital_unmet H
    · rfl
    cases extractSeries value Var.school_unmet H
    · rfl
    cases extractSeries value Var.homes_unmet H
    · rfl
    cases extractSeries value Var.curtail H
    · rfl
    cases floatOfValue objValue
    · rfl
    · rfl

theorem isEmpty_false_of_length24 (l : List ℚ) (hl : l.length = 24) :
    l.isEmpty = false := by
  cases l with
  | nil => simp at hl
  | cons a t => rfl

/-- C9 counterexample: with an empty solar series, run_microgrid silently
substitutes the all-zero 24-hour generation series with no error, and run_day
silently falls back to the configured series with no error, so the claim that
every such call fails with a validation error is false at this input. -/
theorem C9_counterexample :
    rmgGen [] (List.replicate 24 1) = List.replicate 24 0 ∧
    rdayGen [] (List.replicate 24 1) (some (List.replicate 24 3)) =
      .ok (List.replicate 24 3) := ⟨rfl, rfl⟩

/-- C9 amended: when both forecast series have length 24 all three callers
consume their elementwise sum; otherwise only run_from_forecasts fails with a
RuntimeError, while run_microgrid silently substitutes the zero series and
run_day falls back to the configured series, failing only when that too is
missing or not of length 24. -/
theorem C9_gen_selection_amended (solar wind : List ℚ)
    (cfgSeries : Option (List ℚ)) :
    (rffGen solar wind =
      if solar.length = 24 ∧ wind.length = 24
      then .ok (List.zipWith (· + ·) solar wind)
      else .error .runtimeError) ∧
    (rmgGen solar wind =
      if solar.length = 24 ∧ wind.length = 24
      then List.zipWith (· + ·) solar wind
      else List.replicate 24 0) ∧
    (rdayGen solar wind cfgSeries =
      if solar.length = 24 ∧ wind.length = 24
      then .ok (List.zipWith (· + ·) solar wind)
      else match cfgSeries with
        | none => .error .runtimeError
        | some g =>
          if g.length = 24 then .ok g else .error .runtimeError) := by
  by_cases h24 : solar.length = 24 ∧ wind.length = 24
  · rw [if_pos h24, if_pos h24, if_pos h24]
    have hse := isEmpty_false_of_length24 solar h24.1
    have hwe := isEmpty_false_of_length24 wind h24.2
    refine ⟨?_, ?_, ?_⟩
    · unfold rffGen
      rw [if_neg (by simp [hse, hwe]), if_neg (by simp [h24.1, h24.2])]
    · unfold rmgGen
      rw [if_pos (by simp [hse, hwe, h24.1, h24.2])]
    · unfold rdayGen
      rw [if_pos (by simp [hse, hwe, h24.1, h24.2])]
  · rw [if_neg h24, if_neg h24, if_neg h24]
    have hcond : (!solar.isEmpty && !wind.isEmpty && (solar.length == 24) &&
        (wind.length == 24)) = false := by
      rcases not_and_or.mp h24 with hA | hA
      · simp [hA]
      · simp [hA]
    refine ⟨?_, ?_, ?_⟩
    · unfold rffGen
      by_cases he : (solar.isEmpty || wind.isEmpty) = true
      · rw [if_pos he]
      · rw [if_neg he, if_pos ?_]
        rcases not_and_or.mp h24 with hA | hA
        · simp [hA]
        · simp [hA]
    · unfold rmgGen
      rw [if_neg (by simp [hcond])]
    · unfold rdayGen
      rw [if_neg (by simp [hcond])]
      cases cfgSeries with
      | none => rfl
      | some g =>
        show (if (g.isEmpty || decide (g.length ≠ 24)) = true
            then Except.error PyError.runtimeError else Except.ok g) =
          if g.length = 24 then Except.ok g
          else Except.error PyError.runtimeError
        by_cases hg : g.length = 24
        · rw [if_pos hg,
            if_neg (by simp [isEmpty_false_of_length24 g hg, hg])]
        · rw [if_neg hg, if_pos (by simp [hg])]

theorem getD_replicate_lt (n : ℕ) (q : ℚ) (h : ℕ) (hh : h < n) :
    (List.replicate n q).getD h 0 = q := by
  induction n generalizing h with
  | zero => omega
  | succ k ih =>
    cases h with
    | zero => rfl
    | succ j =>
      show (List.replicate k q).getD j 0 = q
      exact ih j (by omega)

/-- C10: an islanded call whose loads dict omits all class keys and whose
params dict omits all penalty keys still returns a well-formed program, with
the hard-coded default demands (hospital 2.0, school 1.0, homes 0.8 kWh/hour)
appearing in the load-split constraints, the default penalty weights
(1000/100/10 for the classes, 1 curtailment, 0.1 cycling) in the objective,
and the class weights strictly decreasing along the priority order. -/
theorem C10_micro_defaults (gen : List ℚ) (battery : BatteryDict)
    (loads : LoadsDict) (params : ParamsDict) (h : ℕ)
    (hh : h < gen.length) :
    microHosp gen.length { loads with hospital_kWh := none } =
      List.replicate gen.length 2 ∧
    microSchool gen.length { loads with school_kWh := none } =
      List.replicate gen.length 1 ∧
    microHomes gen.length { loads with homes_kWh := none } =
      List.replicate gen.length (4/5) ∧
    (resolveMicro battery
      { params with P_hospital_unmet := none }).p_hospital = 1000 ∧
    (resolveMicro battery { params with P_school_unmet := none }).p_school =
      100 ∧
    (resolveMicro battery { params with P_homes_unmet := none }).p_homes =
      10 ∧
    (resolveMicro battery { params with P_curtail := none }).p_curtail = 1 ∧
    (resolveMicro battery { params with P_cycle := none }).p_cycle = 1/10 ∧
    ∃ m, build_microgrid_model gen ({} : LoadsDict) battery
        ({} : ParamsDict) = .ok m ∧
      microHosp gen.length {} = List.replicate gen.length 2 ∧
      microSchool gen.length {} = List.replicate gen.length 1 ∧
      microHomes gen.length {} = List.replicate gen.length (4/5) ∧
      ContainsCon m (fun a =>
        a (Var.hospital_served h) + a (Var.hospital_unmet h) = 2) ∧
      ContainsCon m (fun a =>
        a (Var.school_served h) + a (Var.school_unmet h) = 1) ∧
      ContainsCon m (fun a =>
        a (Var.homes_served h) + a (Var.homes_unmet h) = 4/5) ∧
      m.objective = microObjective gen.length (resolveMicro battery {}) ∧
      (resolveMicro battery {}).p_hospital = 1000 ∧
      (resolveMicro battery {}).p_school = 100 ∧
      (resolveMicro battery {}).p_homes = 10 ∧
      (resolveMicro battery {}).p_curtail = 1 ∧
      (resolveMicro battery {}).p_cycle = 1/10 ∧
      (resolveMicro battery {}).p_school <
        (resolveMicro battery {}).p_hospital ∧
      (resolveMicro battery {}).p_homes < (resolveMicro battery {}).p_school := by
  have hne : gen ≠ [] := by
    intro hnil
    rw [hnil] at hh
    simp at hh
  refine ⟨rfl, rfl, rfl, rfl, rfl, rfl, rfl, rfl,
    microModel gen {} battery {},
    build_microgrid_model_ok gen {} battery {} hne trivial trivial trivial
      (fun _ => by norm_num [resolveMicro]), rfl, rfl, rfl, ?_, ?_, ?_, rfl,
    rfl, rfl, rfl, rfl, rfl, by norm_num [resolveMicro],
    by norm_num [resolveMicro]⟩
  · refine ⟨⟨.eq,
      LinExpr.ofVar (.hospital_served h) + LinExpr.ofVar (.hospital_unmet h),
      LinExpr.ofConst ((microHosp gen.length {}).getD h 0)⟩,
      mem_microModel_of_hour gen {} battery {} h hh _ ?_, ?_⟩
    · simp [microHourCons]
    · intro a
      show _ = _ ↔ _
      simp only [LinExpr.eval_add, LinExpr.eval_ofVar, LinExpr.eval_ofConst]
      rw [show microHosp gen.length {} = List.replicate gen.length 2 from rfl,
        getD_replicate_lt gen.length 2 h hh]
  · refine ⟨⟨.eq,
      LinExpr.ofVar (.school_served h) + LinExpr.ofVar (.school_unmet h),
      LinExpr.ofConst ((microSchool gen.length {}).getD h 0)⟩,
      mem_microModel_of_hour gen {} battery {} h hh _ ?_, ?_⟩
    · simp [microHourCons]
    · intro a
      show _ = _ ↔ _
      simp only [LinExpr.eval_add, LinExpr.eval_ofVar, LinExpr.eval_ofConst]
      rw [show microSchool gen.length {} = List.replicate gen.length 1 from rfl,
        getD_replicate_lt gen.length 1 h hh]
  · refine ⟨⟨.eq,
      LinExpr.ofVar (.homes_served h) + LinExpr.ofVar (.homes_unmet h),
      LinExpr.ofConst ((microHomes gen.length {}).getD h 0)⟩,
      mem_microModel_of_hour gen {} battery {} h hh _ ?_, ?_⟩
    · simp [microHourCons]
    · intro a
      show _ = _ ↔ _
      simp only [LinExpr.eval_add, LinExpr.eval_ofVar, LinExpr.eval_ofConst]
      rw [show microHomes gen.length {} =
          List.replicate gen.length (4/5) from rfl,
        getD_replicate_lt gen.length (4/5) h hh]

/-- Witness for C10 at a concrete one-hour input. -/
theorem C10_micro_defaults_witness :
    microHosp ([0] : List ℚ).length
        { ({} : LoadsDict) with hospital_kWh := none } =
      List.replicate ([0] : List ℚ).length 2 ∧
    microSchool ([0] : List ℚ).length
        { ({} : LoadsDict) with school_kWh := none } =
      List.replicate ([0] : List ℚ).length 1 ∧
    microHomes ([0] : List ℚ).length
        { ({} : LoadsDict) with homes_kWh := none } =
      List.replicate ([0] : List ℚ).length (4/5) ∧
    (resolveMicro {}
      { ({} : ParamsDict) with P_hospital_unmet := none }).p_hospital = 1000 ∧
    (resolveMicro {}
      { ({} : ParamsDict) with P_school_unmet := none }).p_school = 100 ∧
    (resolveMicro {}
      { ({} : ParamsDict) with P_homes_unmet := none }).p_homes = 10 ∧
    (resolveMicro {}
      { ({} : ParamsDict) with P_curtail := none }).p_curtail = 1 ∧
    (resolveMicro {}
      { ({} : ParamsDict) with P_cycle := none }).p_cycle = 1/10 ∧
    ∃ m, build_microgrid_model [0] ({} : LoadsDict) ({} : BatteryDict)
        ({} : ParamsDict) = .ok m ∧
      microHosp ([0] : List ℚ).length {} =
        List.replicate ([0] : List ℚ).length 2 ∧
      microSchool ([0] : List ℚ).length {} =
        List.replicate ([0] : List ℚ).length 1 ∧
      microHomes ([0] : List ℚ).length {} =
        List.replicate ([0] : List ℚ).length (4/5) ∧
      ContainsCon m (fun a =>
        a (Var.hospital_served 0) + a (Var.hospital_unmet 0) = 2) ∧
      ContainsCon m (fun a =>
        a (Var.school_served 0) + a (Var.school_unmet 0) = 1) ∧
      ContainsCon m (fun a =>
        a (Var.homes_served 0) + a (Var.homes_unmet 0) = 4/5) ∧
      m.objective = microObjective ([0] : List ℚ).length
        (resolveMicro {} {}) ∧
      (resolveMicro {} {}).p_hospital = 1000 ∧
      (resolveMicro {} {}).p_school = 100 ∧
      (resolveMicro {} {}).p_homes = 10 ∧
      (resolveMicro {} {}).p_curtail = 1 ∧
      (resolveMicro {} {}).p_cycle = 1/10 ∧
      (resolveMicro {} {}).p_school < (resolveMicro {} {}).p_hospital ∧
      (resolveMicro {} {}).p_homes < (resolveMicro {} {}).p_school :=
  C10_micro_defaults [0] {} {} {} 0 (by norm_num)
